import Mathlib

/-!
Shallow embedding of the KPI backend (the MySQL server in server.js,
lines 227-556 of the concatenated file, and the variant in
src/unnamed/part_001).  Request parameters are optional strings, exactly
as express delivers them from the query string.  The database is modelled
as a function from (SQL text, bound parameter list) to either a driver
error message or a list of rows; each row is an association list from
column name to value.  Every handler returns, besides its HTTP response,
the list of queries it issued, so that theorems can speak about which SQL
text was sent to the database and which values were bound.

JS-specific coercions that the code relies on (`parseInt`,
`String(...)`, truthiness of strings and of query parameters) are
embedded explicitly.  `parseInt` is modelled with exact integers (the
float rounding of JS numbers beyond 2^53 is not modelled; it can only
cause extra format rejections) and without the hexadecimal `0x` prefix
(a hex-parsed string can never pass the `String(parseInt(id)) === String(id)`
round-trip check, in the code or in this model, so the verdict of the
only use of `parseInt` is unaffected).
-/

namespace Backend

/-- A JS value as it flows through the handlers: integers, strings,
`null`, `undefined`, and `NaN` (`parseInt` of a malformed string). -/
inductive JsVal where
  | vInt (n : Int)
  | vStr (s : String)
  | vNull
  | vUndef
  | vNaN
  deriving DecidableEq, Repr

/-- JS truthiness of a value (`0`, `""`, `null`, `undefined`, `NaN` are falsy). -/
def jsTruthy : JsVal → Bool
  | .vInt n => n != 0
  | .vStr s => s != ""
  | _ => false

/-- Falsiness of an optional query-string parameter: absent (`undefined`)
or the empty string. -/
def jsOptFalsy : Option String → Bool
  | none => true
  | some s => s == ""

/-- Truthiness of an optional query-string parameter. -/
def jsOptTruthy (o : Option String) : Bool := !jsOptFalsy o

/-- The decimal digit character for a digit value below ten. -/
def digitChar : Nat → Char
  | 0 => '0'
  | 1 => '1'
  | 2 => '2'
  | 3 => '3'
  | 4 => '4'
  | 5 => '5'
  | 6 => '6'
  | 7 => '7'
  | 8 => '8'
  | _ => '9'

/-- The digit value of a decimal digit character. -/
def charToDigit (c : Char) : Nat := c.toNat - 48

/-- Value of a big-endian list of decimal digit characters. -/
def digitsToNat (ds : List Char) : Nat :=
  ds.foldl (fun a c => 10 * a + charToDigit c) 0

/-- Big-endian decimal digits of `n`, with `fuel` bounding the recursion
depth so that the definition is structural and kernel-reducible. -/
def natToDigitsAux : Nat → Nat → List Char
  | 0, _ => []
  | fuel + 1, n =>
    if n < 10 then [digitChar n]
    else natToDigitsAux fuel (n / 10) ++ [digitChar (n % 10)]

/-- Big-endian decimal digits of `n` (no leading zeros; `0` is `['0']`). -/
def natToDigits (n : Nat) : List Char := natToDigitsAux (n + 1) n

/-- Canonical decimal string of a natural number, as `String(...)` prints it. -/
def natToString (n : Nat) : String := String.mk (natToDigits n)

/-- Canonical decimal string of an integer, as JS `String(n)` prints an
integer-valued number (`String(-0)` is `"0"`, matched here because the
model has no negative zero). -/
def intToString (n : Int) : String :=
  if n < 0 then "-" ++ natToString n.natAbs else natToString n.toNat

/-- The longest decimal-digit prefix of a character list, as a number;
`none` when there is no leading digit (JS `parseInt` returning `NaN`). -/
def parseDigitPrefix (cs : List Char) : Option Nat :=
  match cs.takeWhile Char.isDigit with
  | [] => none
  | ds => some (digitsToNat ds)

/-- Model of JS `parseInt` on a string: skip leading whitespace, optional
sign, then read the longest digit prefix; `none` models `NaN`. -/
def jsParseInt (s : String) : Option Int :=
  match s.toList.dropWhile Char.isWhitespace with
  | [] => none
  | c :: rest =>
    if c = '-' then (parseDigitPrefix rest).map (fun n => -(n : Int))
    else if c = '+' then (parseDigitPrefix rest).map (fun n => (n : Int))
    else (parseDigitPrefix (c :: rest)).map (fun n => (n : Int))

/-- The integer-format check the code performs:
`isNaN(parseInt(id)) || String(parseInt(id)) !== String(id)` rejects, and
on acceptance the code continues with `parseInt(id)`.  Returns that
parsed value exactly when the check accepts. -/
def jsIntCheck (s : String) : Option Int :=
  match jsParseInt s with
  | none => none
  | some n => if intToString n == s then some n else none

/-- Non-empty decimal digit run with no leading zero (except `"0"` itself). -/
def canonDigits : List Char → Bool
  | [] => false
  | c :: tl => c.isDigit && tl.all Char.isDigit && (c != '0' || tl.isEmpty)

/-- Spec-side predicate: `s` is the canonical decimal representation of
an integer (optional minus sign, digits, no leading zeros, no `-0`). -/
def isCanonicalInt (s : String) : Bool :=
  if s.toList.head? = some '-' then canonDigits s.toList.tail && s.toList.tail != ['0']
  else canonDigits s.toList

/-- JS `String.prototype.includes`: `pat` occurs somewhere in `s`. -/
def strContains (s pat : String) : Bool :=
  (s.toList.tails).any (fun t => pat.toList.isPrefixOf t)

/-- JS `String.prototype.startsWith`: `pre` is a prefix of `s`. -/
def strStartsWith (s pre : String) : Bool :=
  pre.toList.isPrefixOf s.toList

/-- A database row: association list from column name to value. -/
abbrev Row := List (String × JsVal)

/-- The data source: SQL text and bound parameters to either a driver
error message or a result-row list.  (`const [rows] = await pool.query(q, ps)`.) -/
abbrev Db := String → List JsVal → Except String (List Row)

/-- A query as the code hands it to the driver: SQL text plus bound values. -/
structure Issued where
  sql : String
  params : List JsVal
  deriving DecidableEq, Repr

/-- A JSON response body: an error object, a list of `{label, value}`
objects, raw rows, or a list of strings (the years endpoint). -/
inductive Body where
  | err (msg : String)
  | items (rows : List (JsVal × JsVal))
  | raw (rows : List Row)
  | strs (xs : List String)
  deriving DecidableEq, Repr

/-- An HTTP response: status code and JSON body. -/
structure Resp where
  status : Nat
  body : Body
  deriving DecidableEq, Repr

/-- The KPI request filter set read from the query string. -/
structure Req where
  circleId : Option String := none
  divisionId : Option String := none
  subdivisionId : Option String := none
  sectionId : Option String := none
  year : Option String := none
  deriving DecidableEq, Repr

/-- JS `String(v)` as used on row values. -/
def jsValToString : JsVal → String
  | .vInt n => intToString n
  | .vStr s => s
  | .vNull => "null"
  | .vUndef => "undefined"
  | .vNaN => "NaN"

/-! ## The server.js (main) variant -/

namespace Srv

/-- The tail of `validateAndGetGeoName` after the query string and
parameters are built: run the lookup, classify zero rows, or return
`rows[0][nameCol]`. -/
def finishLookup (db : Db) (q : String) (ps : List JsVal) (idCol id : String)
    (parentId? : Option String) (parentIdCol nameCol : String) :
    Except String JsVal × List Issued :=
  match db q ps with
  | .error m => (.error m, [⟨q, ps⟩])
  | .ok [] =>
    match parentId? with
    | some parentId =>
      (.error ("Invalid " ++ idCol ++ ": " ++ id ++ " does not exist or does not belong to "
        ++ parentIdCol ++ ": " ++ parentId ++ "."), [⟨q, ps⟩])
    | none =>
      (.error ("Invalid " ++ idCol ++ ": " ++ id ++ " does not exist."), [⟨q, ps⟩])
  | .ok (r :: _) => (.ok ((r.lookup nameCol).getD .vUndef), [⟨q, ps⟩])

/-- server.js `validateAndGetGeoName(id, tableName, idCol, nameCol,
parentId, parentIdCol)`.  `none` models both an omitted argument
(`undefined`) and JS `null`; a thrown `Error` is the `.error` case with
the thrown message. -/
def validateAndGetGeoName (db : Db) (id? : Option String)
    (tableName idCol nameCol : String) (parentId? : Option String) (parentIdCol : String) :
    Except String JsVal × List Issued :=
  match id? with
  | none => (.ok .vNull, [])
  | some id =>
    match jsIntCheck id with
    | none =>
      (.error ("Invalid ID format for " ++ idCol ++ ": " ++ id ++ ". Must be an integer."), [])
    | some parsedId =>
      match parentId? with
      | none =>
        finishLookup db
          ("SELECT " ++ nameCol ++ " FROM " ++ tableName ++ " WHERE " ++ idCol ++ " = ?")
          [.vInt parsedId] idCol id none parentIdCol nameCol
      | some parentId =>
        match jsIntCheck parentId with
        | none =>
          (.error ("Invalid parent ID format for " ++ parentIdCol ++ ": " ++ parentId
            ++ ". Must be an integer."), [])
        | some parsedParent =>
          finishLookup db
            ("SELECT " ++ nameCol ++ " FROM " ++ tableName ++ " WHERE " ++ idCol ++ " = ?"
              ++ " AND " ++ parentIdCol ++ " = ?")
            [.vInt parsedId, .vInt parsedParent] idCol id (some parentId) parentIdCol nameCol

/-- The message patterns fetchKPI's catch block maps to status 400. -/
def is400Msg (m : String) : Bool :=
  strStartsWith m "Invalid ID format" || strStartsWith m "Invalid CircleID" ||
  strStartsWith m "Invalid DivisionID" || strStartsWith m "Invalid SubdivisionID" ||
  strStartsWith m "Invalid SectionID" || strContains m "required"

/-- fetchKPI's catch block: validation-looking messages become 400 with
the message, everything else 500 with a generic body. -/
def catchResp (tableName m : String) : Resp :=
  if is400Msg m then ⟨400, .err m⟩
  else ⟨500, .err ("Failed to fetch KPI: " ++ tableName)⟩

/-- The fixed SELECT template of fetchKPI (template literal, lines 443-454),
with the code-fixed `labelKey`, `valueKey` and `tableName` interpolated. -/
def kpiBase (tableName labelKey valueKey : String) : String :=
  "\n            SELECT\n                " ++ labelKey
  ++ " AS month_or_section_label, \n                year,\n                " ++ valueKey
  ++ " AS value,\n                -- Dynamic CONCAT based on labelKey\n                CASE\n                    WHEN '"
  ++ labelKey ++ "' = 'section' THEN " ++ labelKey
  ++ " \n                    ELSE CONCAT(" ++ labelKey
  ++ ", ' ', year) \n                END AS label \n            FROM " ++ tableName
  ++ "\n        "

/-- Lines 421-460 of fetchKPI: build the WHERE clauses (circle and year
always, then one clause per truthy validated name) and the final query
text and bound-parameter list. -/
def buildKpiQuery (tableName labelKey valueKey : String) (circleName : JsVal) (yearInt : Int)
    (divisionName subdivisionName sectionName : JsVal) : String × List JsVal :=
  let whereClauses := ["circle = ?", "year = ?"]
    ++ (if jsTruthy divisionName then ["division = ?"] else [])
    ++ (if jsTruthy subdivisionName then ["subdivision = ?"] else [])
    ++ (if jsTruthy sectionName then ["section = ?"] else [])
  let queryParams := [circleName, JsVal.vInt yearInt]
    ++ (if jsTruthy divisionName then [divisionName] else [])
    ++ (if jsTruthy subdivisionName then [subdivisionName] else [])
    ++ (if jsTruthy sectionName then [sectionName] else [])
  let q := kpiBase tableName labelKey valueKey
  let q := if whereClauses.length > 0
    then q ++ " WHERE " ++ String.intercalate " AND " whereClauses else q
  (q ++ " ORDER BY year, month_or_section_label;", queryParams)

/-- One optional-filter validation inside fetchKPI:
`if (xId) { xName = await validateAndGetGeoName(...) }`; when the filter
is falsy the name variable keeps its `undefined` value. -/
def optValidate (db : Db) (id? : Option String) (tableName idCol nameCol : String)
    (parentId? : Option String) (parentIdCol : String) : Except String JsVal × List Issued :=
  if jsOptTruthy id? then validateAndGetGeoName db id? tableName idCol nameCol parentId? parentIdCol
  else (.ok .vUndef, [])

/-- Projection of a result row to the `{label, value}` object fetchKPI returns. -/
def formatRow (r : Row) : JsVal × JsVal :=
  ((r.lookup "label").getD .vUndef, (r.lookup "value").getD .vUndef)

/-- server.js `fetchKPI(tableName, labelKey, valueKey)` applied to a request:
required-parameter checks, hierarchy validation (division's parent is
`circleId`, subdivision's is `divisionId`, section's is `subdivisionId`),
query build, execution and result shaping, with the catch block mapping
thrown messages to 400 or 500. -/
def fetchKPI (tableName labelKey valueKey : String) (db : Db) (req : Req) :
    Resp × List Issued :=
  if jsOptFalsy req.circleId then (⟨400, .err "circleId is required for KPI data."⟩, [])
  else if jsOptFalsy req.year then (⟨400, .err "year is required for KPI data."⟩, [])
  else
    match jsIntCheck (req.year.getD "") with
    | none =>
      (⟨400, .err ("Invalid year format: " ++ req.year.getD "" ++ ". Must be an integer.")⟩, [])
    | some yearInt =>
      match validateAndGetGeoName db req.circleId "Circles" "CircleID" "CircleName" none "" with
      | (.error m, l1) => (catchResp tableName m, l1)
      | (.ok circleName, l1) =>
        match optValidate db req.divisionId "Divisions" "DivisionID" "DivisionName"
            req.circleId "CircleID" with
        | (.error m, l2) => (catchResp tableName m, l1 ++ l2)
        | (.ok divisionName, l2) =>
          match optValidate db req.subdivisionId "Subdivisions" "SubdivisionID" "SubdivisionName"
              req.divisionId "DivisionID" with
          | (.error m, l3) => (catchResp tableName m, l1 ++ l2 ++ l3)
          | (.ok subdivisionName, l3) =>
            match optValidate db req.sectionId "Sections" "SectionID" "SectionName"
                req.subdivisionId "SubdivisionID" with
            | (.error m, l4) => (catchResp tableName m, l1 ++ l2 ++ l3 ++ l4)
            | (.ok sectionName, l4) =>
              match buildKpiQuery tableName labelKey valueKey circleName yearInt
                  divisionName subdivisionName sectionName with
              | (q, ps) =>
                match db q ps with
                | .error m => (catchResp tableName m, l1 ++ l2 ++ l3 ++ l4 ++ [⟨q, ps⟩])
                | .ok rows =>
                  (⟨200, .items (rows.map formatRow)⟩, l1 ++ l2 ++ l3 ++ l4 ++ [⟨q, ps⟩])

/-- The query text of the /api/filters/years handler (template literal). -/
def yearsSql : String :=
  "\n            SELECT DISTINCT year AS year_val\n            FROM billing_efficiency\n            ORDER BY year_val DESC;\n        "

/-- server.js GET /api/filters/years: a single query against
billing_efficiency; rows mapped to strings on success, a fixed 500 body
on any database error. -/
def yearsHandler (db : Db) : Resp × List Issued :=
  match db yearsSql [] with
  | .error _ => (⟨500, .err "Failed to fetch years"⟩, [⟨yearsSql, []⟩])
  | .ok rows =>
    (⟨200, .strs (rows.map (fun r => jsValToString ((r.lookup "year_val").getD .vUndef)))⟩,
      [⟨yearsSql, []⟩])

/-- server.js GET /api/kpi/disputed-bills: reads only `year` from the
request; geographic parameters are never consulted. -/
def disputedBillsHandler (db : Db) (req : Req) : Resp × List Issued :=
  if jsOptFalsy req.year then (⟨400, .err "year is required for disputed-bills KPI."⟩, [])
  else
    match jsIntCheck (req.year.getD "") with
    | none =>
      (⟨400, .err ("Invalid year format: " ++ req.year.getD "" ++ ". Must be an integer.")⟩, [])
    | some y =>
      let q := "SELECT month, year, total, disputed FROM disputed_bills WHERE year = ? ORDER BY year, month;"
      match db q [.vInt y] with
      | .error m =>
        (if strStartsWith m "Invalid year format" then ⟨400, .err m⟩
         else ⟨500, .err "Failed to fetch KPI: disputed_bills"⟩, [⟨q, [.vInt y]⟩])
      | .ok rows =>
        (⟨200, .items (rows.map (fun r =>
          (JsVal.vStr (jsValToString ((r.lookup "month").getD .vUndef) ++ " "
            ++ jsValToString ((r.lookup "year").getD .vUndef)),
           (r.lookup "total").getD .vUndef)))⟩, [⟨q, [.vInt y]⟩])

/-- server.js GET /api/kpi/metering-status: reads only `year` from the
request; geographic parameters are never consulted. -/
def meteringStatusHandler (db : Db) (req : Req) : Resp × List Issued :=
  if jsOptFalsy req.year then (⟨400, .err "year is required for metering-status KPI."⟩, [])
  else
    match jsIntCheck (req.year.getD "") with
    | none =>
      (⟨400, .err ("Invalid year format: " ++ req.year.getD "" ++ ". Must be an integer.")⟩, [])
    | some y =>
      let q := "SELECT month, year, metered, unmetered FROM metering_status WHERE year = ? ORDER BY year, month;"
      match db q [.vInt y] with
      | .error m =>
        (if strStartsWith m "Invalid year format" then ⟨400, .err m⟩
         else ⟨500, .err "Failed to fetch KPI: metering_status"⟩, [⟨q, [.vInt y]⟩])
      | .ok rows =>
        (⟨200, .items (rows.map (fun r =>
          (JsVal.vStr (jsValToString ((r.lookup "month").getD .vUndef) ++ " "
            ++ jsValToString ((r.lookup "year").getD .vUndef)),
           (r.lookup "metered").getD .vUndef)))⟩, [⟨q, [.vInt y]⟩])

end Srv

/-! ## The part_001 variant -/

namespace P1

/-- The lookup tail of part_001's validateAndGetGeoName; the zero-row
message appends the parent part exactly when the raw `parentId` string is
truthy (the `${parentId ? ... : ''}` ternary). -/
def finishLookup (db : Db) (q : String) (ps : List JsVal) (idCol id : String)
    (parentId? : Option String) (parentIdCol nameCol : String) :
    Except String JsVal × List Issued :=
  match db q ps with
  | .error m => (.error m, [⟨q, ps⟩])
  | .ok [] =>
    (.error ("Invalid " ++ idCol ++ ": " ++ id ++ " does not exist"
      ++ (match parentId? with
          | some p => if p != "" then " or does not belong to " ++ parentIdCol ++ ": " ++ p else ""
          | none => "") ++ "."), [⟨q, ps⟩])
  | .ok (r :: _) => (.ok ((r.lookup nameCol).getD .vUndef), [⟨q, ps⟩])

/-- part_001 `validateAndGetGeoName` (`parentId = null`, `parentIdCol = null`
defaults): `id === undefined || id === null` is the `none` case. -/
def validateAndGetGeoName (db : Db) (id? : Option String)
    (tableName idCol nameCol : String) (parentId? : Option String) (parentIdCol : String) :
    Except String JsVal × List Issued :=
  match id? with
  | none => (.ok .vNull, [])
  | some id =>
    match jsIntCheck id with
    | none =>
      (.error ("Invalid ID format for " ++ idCol ++ ": " ++ id ++ ". Must be an integer."), [])
    | some parsedId =>
      match parentId? with
      | none =>
        finishLookup db
          ("SELECT " ++ nameCol ++ " FROM " ++ tableName ++ " WHERE " ++ idCol ++ " = ?")
          [.vInt parsedId] idCol id none parentIdCol nameCol
      | some parentId =>
        match jsIntCheck parentId with
        | none =>
          (.error ("Invalid parent ID format for " ++ parentIdCol ++ ": " ++ parentId
            ++ ". Must be an integer."), [])
        | some parsedParent =>
          finishLookup db
            ("SELECT " ++ nameCol ++ " FROM " ++ tableName ++ " WHERE " ++ idCol ++ " = ?"
              ++ " AND " ++ parentIdCol ++ " = ?")
            [.vInt parsedId, .vInt parsedParent] idCol id (some parentId) parentIdCol nameCol

/-- One iteration of part_001 fetchKPI's `for (const key of ['CircleID',
'DivisionID','SubdivisionID','SectionID'])` loop: when the filter is
truthy, validate it with NO parent argument (existence only), then push
`key = ?` and the RAW request string onto the clause and parameter lists. -/
def kpiStep (db : Db) (id? : Option String) (tableName idCol nameCol : String)
    (st : List String × List JsVal × List Issued) :
    Except (String × List Issued) (List String × List JsVal × List Issued) :=
  match st with
  | (wh, ps, log) =>
    if jsOptTruthy id? then
      match validateAndGetGeoName db id? tableName idCol nameCol none "" with
      | (.error m, l) => .error (m, log ++ l)
      | (.ok _, l) => .ok (wh ++ [idCol ++ " = ?"], ps ++ [.vStr (id?.getD "")], log ++ l)
    else .ok (wh, ps, log)

/-- part_001 `fetchKPI(table, columns)` applied to a request.  The loop
over the four fixed keys is unrolled; the table and name column for each
key are the values of `key.replace('ID','s')` and `key.replace('ID','Name')`
on the fixed key list.  The catch block maps EVERY thrown message,
including driver errors, to status 400. -/
def fetchKPI (table : String) (columns : List String) (db : Db) (req : Req) :
    Resp × List Issued :=
  if jsOptFalsy req.circleId || jsOptFalsy req.year then
    (⟨400, .err "circleId and year are required."⟩, [])
  else
    let yearParam := match jsParseInt (req.year.getD "") with
      | some n => JsVal.vInt n
      | none => JsVal.vNaN
    match kpiStep db req.circleId "Circles" "CircleID" "CircleName" (["Year = ?"], [yearParam], []) with
    | .error (m, log) => (⟨400, .err m⟩, log)
    | .ok st1 =>
      match kpiStep db req.divisionId "Divisions" "DivisionID" "DivisionName" st1 with
      | .error (m, log) => (⟨400, .err m⟩, log)
      | .ok st2 =>
        match kpiStep db req.subdivisionId "Subdivisions" "SubdivisionID" "SubdivisionName" st2 with
        | .error (m, log) => (⟨400, .err m⟩, log)
        | .ok st3 =>
          match kpiStep db req.sectionId "Sections" "SectionID" "SectionName" st3 with
          | .error (m, log) => (⟨400, .err m⟩, log)
          | .ok (wh, ps, log) =>
            let q := "SELECT " ++ String.intercalate ", " columns ++ " FROM " ++ table
              ++ " WHERE " ++ String.intercalate " AND " wh
            match db q ps with
            | .error m => (⟨400, .err m⟩, log ++ [⟨q, ps⟩])
            | .ok rows => (⟨200, .raw rows⟩, log ++ [⟨q, ps⟩])

/-- part_001 GET /api/filters/divisions: requires `circleId`, validates it
(existence only), lists divisions with the RAW `circleId` bound; the
catch block maps every thrown message, including driver errors, to 400. -/
def divisionsHandler (db : Db) (circleId? : Option String) : Resp × List Issued :=
  if jsOptFalsy circleId? then (⟨400, .err "circleId is required."⟩, [])
  else
    match validateAndGetGeoName db circleId? "Circles" "CircleID" "CircleName" none "" with
    | (.error m, l) => (⟨400, .err m⟩, l)
    | (.ok _, l) =>
      let q := "SELECT DivisionID AS id, DivisionName AS name FROM Divisions WHERE CircleID = ? ORDER BY DivisionName;"
      match db q [.vStr (circleId?.getD "")] with
      | .error m => (⟨400, .err m⟩, l ++ [⟨q, [.vStr (circleId?.getD "")]⟩])
      | .ok rows => (⟨200, .raw rows⟩, l ++ [⟨q, [.vStr (circleId?.getD "")]⟩])

end P1

/-! ## Spec-side query shapes and database well-formedness -/

/-- The SQL text of a validation lookup as a function of the code-fixed
identifiers and of the presence of a parent constraint only. -/
def valSqlShape (tableName idCol nameCol parentIdCol : String) (withParent : Bool) : String :=
  if withParent then
    "SELECT " ++ nameCol ++ " FROM " ++ tableName ++ " WHERE " ++ idCol ++ " = ?"
      ++ " AND " ++ parentIdCol ++ " = ?"
  else
    "SELECT " ++ nameCol ++ " FROM " ++ tableName ++ " WHERE " ++ idCol ++ " = ?"

/-- The KPI SQL text as a function of the code-fixed identifiers and of
the three optional-filter presence flags only. -/
def kpiSqlShape (tableName labelKey valueKey : String) (bd bs bsec : Bool) : String :=
  Srv.kpiBase tableName labelKey valueKey ++ " WHERE "
    ++ String.intercalate " AND " (["circle = ?", "year = ?"]
        ++ (if bd then ["division = ?"] else [])
        ++ (if bs then ["subdivision = ?"] else [])
        ++ (if bsec then ["section = ?"] else []))
    ++ " ORDER BY year, month_or_section_label;"

/-- The geographic display-name columns. -/
def nameCols : List String := ["CircleName", "DivisionName", "SubdivisionName", "SectionName"]

/-- Databases in which every geographic display name returned in a result
row is a non-empty string (names are never empty, NULL or missing in
well-formed master data). -/
def goodDb (db : Db) : Prop :=
  ∀ q ps r rest, db q ps = .ok (r :: rest) →
    ∀ col ∈ nameCols, ∃ s, r.lookup col = some (.vStr s) ∧ s ≠ ""

/-- The SQL trace of a fully successful fetchKPI run, as a function of
the code-fixed identifiers and the three presence flags only. -/
def srvLogShape (tableName labelKey valueKey : String) (bd bs bsec : Bool) : List String :=
  [valSqlShape "Circles" "CircleID" "CircleName" "" false]
  ++ (if bd then [valSqlShape "Divisions" "DivisionID" "DivisionName" "CircleID" true] else [])
  ++ (if bs then [valSqlShape "Subdivisions" "SubdivisionID" "SubdivisionName" "DivisionID" bd] else [])
  ++ (if bsec then [valSqlShape "Sections" "SectionID" "SectionName" "SubdivisionID" bs] else [])
  ++ [kpiSqlShape tableName labelKey valueKey bd bs bsec]

/-- The four validation queries of an all-filters fetchKPI request, in
hierarchy order, each level's own ID bound as the parent parameter of
the next level's lookup. -/
def threadedIssued (c d s sec : Int) : List Issued :=
  [⟨valSqlShape "Circles" "CircleID" "CircleName" "" false, [.vInt c]⟩,
   ⟨valSqlShape "Divisions" "DivisionID" "DivisionName" "CircleID" true, [.vInt d, .vInt c]⟩,
   ⟨valSqlShape "Subdivisions" "SubdivisionID" "SubdivisionName" "DivisionID" true, [.vInt s, .vInt d]⟩,
   ⟨valSqlShape "Sections" "SectionID" "SectionName" "SubdivisionID" true, [.vInt sec, .vInt s]⟩]

/-! ## Concrete databases and requests used in witnesses and counterexamples -/

/-- A master-data row carrying every display-name column (non-empty
names) plus KPI output columns. -/
def rowAllNames : Row :=
  [("CircleName", .vStr "North"), ("DivisionName", .vStr "Dn1"),
   ("SubdivisionName", .vStr "Sb1"), ("SectionName", .vStr "Sc1"),
   ("label", .vStr "Jan 2024"), ("value", .vInt 95),
   ("month", .vStr "Jan"), ("year", .vInt 2024),
   ("total", .vInt 10), ("metered", .vInt 7)]

/-- A database answering every query with the single row above. -/
def dbAllNames : Db := fun _ _ => .ok [rowAllNames]

/-- A database answering every query with an empty result. -/
def dbEmpty : Db := fun _ _ => .ok []

/-- A database failing every query with a connectivity error. -/
def dbErr : Db := fun _ _ => .error "connect ECONNREFUSED 127.0.0.1:3306"

/-- A database failing every query with a missing-column schema error. -/
def dbSchemaErr : Db := fun _ _ =>
  .error "ER_BAD_FIELD_ERROR: Unknown column 'year' in 'field list'"

/-- A database that knows circle 1 and nothing else. -/
def dbCircleOnly : Db := fun q _ =>
  if q = "SELECT CircleName FROM Circles WHERE CircleID = ?" then
    .ok [[("CircleName", JsVal.vStr "North")]]
  else .ok []

/-- A database that knows circle 1 and fails every other query with a
connectivity error. -/
def dbKpiErr : Db := fun q _ =>
  if q = "SELECT CircleName FROM Circles WHERE CircleID = ?" then
    .ok [[("CircleName", JsVal.vStr "North")]]
  else .error "connect ECONNREFUSED 127.0.0.1:3306"

/-- A database that knows circle 1 and fails every other query with a
driver message that happens to contain the word "required". -/
def dbKpiErrRequired : Db := fun q _ =>
  if q = "SELECT CircleName FROM Circles WHERE CircleID = ?" then
    .ok [[("CircleName", JsVal.vStr "North")]]
  else .error "Connections using insecure transport are prohibited; secure transport required"

/-- A master-data row whose division name is the given string. -/
def rowNamed (s : String) : Row :=
  [("CircleName", .vStr "North"), ("DivisionName", .vStr s),
   ("SubdivisionName", .vStr "Sb1"), ("SectionName", .vStr "Sc1"),
   ("label", .vStr "L"), ("value", .vInt 1)]

/-- A database in which division 2 has the empty string as its display
name while division 3 has a normal name. -/
def dbEmptyName : Db := fun _ ps =>
  if ps = [JsVal.vInt 2, JsVal.vInt 1] then .ok [rowNamed ""]
  else .ok [rowNamed "Dn3"]

/-- A database where the geographic rows exist but no division belongs to
any circle and no section belongs to any subdivision: every lookup that
carries a parent constraint is empty, every existence-only lookup finds a
row. -/
def dbP1CE : Db := fun q _ =>
  if q = "SELECT SectionName FROM Sections WHERE SectionID = ? AND SubdivisionID = ?" then .ok []
  else if q = "SELECT DivisionName FROM Divisions WHERE DivisionID = ? AND CircleID = ?" then .ok []
  else if q = "SELECT CircleName FROM Circles WHERE CircleID = ?" then
    .ok [[("CircleName", JsVal.vStr "North")]]
  else if q = "SELECT SubdivisionName FROM Subdivisions WHERE SubdivisionID = ?" then
    .ok [[("SubdivisionName", JsVal.vStr "Sb1")]]
  else if q = "SELECT SectionName FROM Sections WHERE SectionID = ?" then
    .ok [[("SectionName", JsVal.vStr "Sc7")]]
  else .ok []

/-- A database where subdivision existence lookups succeed but every
division-under-circle lookup is empty. -/
def dbSubNoParent : Db := fun q _ =>
  if q = "SELECT DivisionName FROM Divisions WHERE DivisionID = ? AND CircleID = ?" then .ok []
  else .ok [rowAllNames]

/-- Request: circle 1, division 2, year 2024. -/
def reqA : Req := { circleId := some "1", divisionId := some "2", year := some "2024" }

/-- Request: circle 3, division 7, year 2024 (same key set as `reqA`). -/
def reqB : Req := { circleId := some "3", divisionId := some "7", year := some "2024" }

/-- Request with the same year as `reqA` but different geographic filters. -/
def reqGeoB : Req :=
  { circleId := some "99", divisionId := some "88", sectionId := some "7", year := some "2024" }

/-- Request selecting the empty-named division 2. -/
def reqCE1 : Req := { circleId := some "1", divisionId := some "2", year := some "2024" }

/-- Request selecting the normally named division 3 (same key set). -/
def reqCE2 : Req := { circleId := some "1", divisionId := some "3", year := some "2024" }

/-- Request with subdivision 1 and section 7 but no division filter. -/
def reqP1CE : Req :=
  { circleId := some "1", subdivisionId := some "1", sectionId := some "7", year := some "2024" }

/-- Request with an empty divisionId parameter and a subdivision filter. -/
def reqEmptyDivision : Req :=
  { circleId := some "1", divisionId := some "", subdivisionId := some "5", year := some "2024" }

/-- Request with a subdivision filter and no division filter. -/
def reqSubOnly : Req :=
  { circleId := some "1", subdivisionId := some "5", year := some "2024" }

/-- The empty request. -/
def reqNone : Req := {}

/-- The request supplying all four geographic filters and the year as
canonical integer strings. -/
def allFiltersReq (c d s sec y : Int) : Req :=
  ⟨some (intToString c), some (intToString d), some (intToString s),
   some (intToString sec), some (intToString y)⟩

/-- The request supplying circle, subdivision and year only (no division,
no section), as canonical integer strings. -/
def subOnlyReq (c s y : Int) : Req :=
  ⟨some (intToString c), none, some (intToString s), none, some (intToString y)⟩

end Backend

/-! ## Theorems -/

namespace Backend

theorem charToDigit_digitChar {d : Nat} (h : d < 10) : charToDigit (digitChar d) = d := by
  interval_cases d <;> decide

theorem digitChar_isDigit {d : Nat} (h : d < 10) : (digitChar d).isDigit = true := by
  interval_cases d <;> decide

theorem digitChar_ne_zero {d : Nat} (h0 : 1 ≤ d) (h : d < 10) : digitChar d ≠ '0' := by
  interval_cases d <;> decide

theorem not_ws_of_isDigit {c : Char} (h : c.isDigit = true) : c.isWhitespace = false := by
  have h1 : c ≠ ' ' := by rintro rfl; exact absurd h (by decide)
  have h2 : c ≠ '\t' := by rintro rfl; exact absurd h (by decide)
  have h3 : c ≠ '\r' := by rintro rfl; exact absurd h (by decide)
  have h4 : c ≠ '\n' := by rintro rfl; exact absurd h (by decide)
  simp [Char.isWhitespace, h1, h2, h3, h4]

theorem ne_dash_of_isDigit {c : Char} (h : c.isDigit = true) : c ≠ '-' := by
  rintro rfl; exact absurd h (by decide)

theorem ne_plus_of_isDigit {c : Char} (h : c.isDigit = true) : c ≠ '+' := by
  rintro rfl; exact absurd h (by decide)

theorem digitsToNat_append (ds : List Char) (c : Char) :
    digitsToNat (ds ++ [c]) = 10 * digitsToNat ds + charToDigit c := by
  unfold digitsToNat
  rw [List.foldl_append]
  rfl

theorem natToDigitsAux_spec :
    ∀ fuel n, n < fuel →
      digitsToNat (natToDigitsAux fuel n) = n ∧
      natToDigitsAux fuel n ≠ [] ∧
      (∀ c ∈ natToDigitsAux fuel n, c.isDigit = true) ∧
      (∀ c l, natToDigitsAux fuel n = c :: l → 1 ≤ n → c ≠ '0') := by
  intro fuel
  induction fuel with
  | zero => intro n h; omega
  | succ fuel ih =>
    intro n h
    unfold natToDigitsAux
    by_cases h10 : n < 10
    · rw [if_pos h10]
      refine ⟨?_, by simp, ?_, ?_⟩
      · show digitsToNat ([] ++ [digitChar n]) = n
        rw [digitsToNat_append, charToDigit_digitChar h10]
        simp [digitsToNat]
      · intro c hc
        rw [List.mem_singleton] at hc
        subst hc
        exact digitChar_isDigit h10
      · intro c l hcl h1
        have hc : c = digitChar n := by
          have := congrArg (List.head? ·) hcl
          simpa using this.symm
        subst hc
        exact digitChar_ne_zero h1 h10
    · rw [if_neg h10]
      have hd : n / 10 < n := Nat.div_lt_self (by omega) (by omega)
      obtain ⟨ih1, ih2, ih3, ih4⟩ := ih (n / 10) (by omega)
      have hm : n % 10 < 10 := Nat.mod_lt _ (by omega)
      refine ⟨?_, by simp, ?_, ?_⟩
      · rw [digitsToNat_append, ih1, charToDigit_digitChar hm]
        omega
      · intro c hc
        rcases List.mem_append.mp hc with hc | hc
        · exact ih3 c hc
        · rw [List.mem_singleton] at hc
          subst hc
          exact digitChar_isDigit hm
      · intro c l hcl h1
        rcases he : natToDigitsAux fuel (n / 10) with _ | ⟨c0, l0⟩
        · exact absurd he ih2
        · rw [he] at hcl
          have hc : c = c0 := by
            have := congrArg (List.head? ·) hcl
            simpa using this.symm
          subst hc
          have h110 : 1 ≤ n / 10 := (Nat.one_le_div_iff (by omega)).mpr (by omega)
          exact ih4 c l0 he h110

theorem digitsToNat_natToDigits (n : Nat) : digitsToNat (natToDigits n) = n :=
  (natToDigitsAux_spec (n + 1) n (by omega)).1

theorem natToDigits_ne_nil (n : Nat) : natToDigits n ≠ [] :=
  (natToDigitsAux_spec (n + 1) n (by omega)).2.1

theorem natToDigits_digits (n : Nat) : ∀ c ∈ natToDigits n, c.isDigit = true :=
  (natToDigitsAux_spec (n + 1) n (by omega)).2.2.1

theorem natToDigits_no_leading_zero (n : Nat) :
    ∀ c l, natToDigits n = c :: l → 1 ≤ n → c ≠ '0' :=
  (natToDigitsAux_spec (n + 1) n (by omega)).2.2.2

theorem takeWhile_eq_self_of_all {p : Char → Bool} :
    ∀ l : List Char, (∀ c ∈ l, p c = true) → l.takeWhile p = l
  | [], _ => rfl
  | c :: t, h => by
    have hc := h c (List.mem_cons_self c t)
    rw [List.takeWhile_cons, if_pos hc,
      takeWhile_eq_self_of_all t (fun x hx => h x (List.mem_cons_of_mem c hx))]

theorem parseDigitPrefix_natToDigits (m : Nat) : parseDigitPrefix (natToDigits m) = some m := by
  unfold parseDigitPrefix
  rw [takeWhile_eq_self_of_all _ (natToDigits_digits m)]
  rcases he : natToDigits m with _ | ⟨c, l⟩
  · exact absurd he (natToDigits_ne_nil m)
  · exact congrArg some (he ▸ digitsToNat_natToDigits m)

theorem jsParseInt_natToString (m : Nat) : jsParseInt (natToString m) = some (m : Int) := by
  unfold jsParseInt
  have htl : (natToString m).toList = natToDigits m := rfl
  rw [htl]
  rcases he : natToDigits m with _ | ⟨c, l⟩
  · exact absurd he (natToDigits_ne_nil m)
  have hc : c.isDigit = true := by
    apply natToDigits_digits m
    rw [he]
    exact List.mem_cons_self c l
  rw [List.dropWhile_cons, not_ws_of_isDigit hc]
  simp only [Bool.false_eq_true, if_false]
  rw [if_neg (ne_dash_of_isDigit hc), if_neg (ne_plus_of_isDigit hc), ← he,
    parseDigitPrefix_natToDigits]
  rfl

theorem jsParseInt_intToString (n : Int) : jsParseInt (intToString n) = some n := by
  rcases n with m | m
  · rw [show intToString (Int.ofNat m) = natToString m by
      unfold intToString
      split
      · rename_i hlt
        rw [Int.ofNat_eq_natCast] at hlt
        omega
      · rfl]
    exact jsParseInt_natToString m
  · have hs : intToString (Int.negSucc m) = "-" ++ natToString (m + 1) := by
      unfold intToString
      rw [if_pos (Int.negSucc_lt_zero m)]
      rfl
    rw [hs]
    unfold jsParseInt
    have htl : ("-" ++ natToString (m + 1)).toList = '-' :: natToDigits (m + 1) := rfl
    rw [htl, List.dropWhile_cons]
    simp only [show ('-').isWhitespace = false by decide, Bool.false_eq_true, if_false,
      if_true]
    rw [parseDigitPrefix_natToDigits]
    simp [Int.negSucc_eq]

theorem jsIntCheck_intToString (n : Int) : jsIntCheck (intToString n) = some n := by
  unfold jsIntCheck
  rw [jsParseInt_intToString]
  simp

theorem intToString_of_jsIntCheck {s : String} {n : Int} (h : jsIntCheck s = some n) :
    intToString n = s := by
  unfold jsIntCheck at h
  split at h
  · exact absurd h (by simp)
  · rename_i m heq
    split at h
    · rename_i hb
      have hmn : m = n := by injection h
      subst hmn
      exact eq_of_beq hb
    · exact absurd h (by simp)

theorem intToString_ne_empty (n : Int) : intToString n ≠ "" := by
  unfold intToString
  split
  · intro h
    exact List.noConfusion (congrArg String.toList h)
  · intro h
    exact natToDigits_ne_nil _ (congrArg String.toList h)

theorem intToString_ofNat (m : Nat) : intToString (Int.ofNat m) = natToString m := by
  unfold intToString
  split
  · rename_i hlt
    rw [Int.ofNat_eq_natCast] at hlt
    omega
  · rfl

theorem intToString_negSucc (m : Nat) :
    intToString (Int.negSucc m) = "-" ++ natToString (m + 1) := by
  unfold intToString
  rw [if_pos (Int.negSucc_lt_zero m)]
  rfl

theorem canonDigits_natToDigits (m : Nat) : canonDigits (natToDigits m) = true := by
  rcases he : natToDigits m with _ | ⟨c, l⟩
  · exact absurd he (natToDigits_ne_nil m)
  · have hc : c.isDigit = true := by
      apply natToDigits_digits m
      rw [he]
      exact List.mem_cons_self c l
    have hl : l.all Char.isDigit = true := by
      rw [List.all_eq_true]
      intro x hx
      apply natToDigits_digits m
      rw [he]
      exact List.mem_cons_of_mem c hx
    by_cases hm : 1 ≤ m
    · have hz : c ≠ '0' := natToDigits_no_leading_zero m c l he hm
      simp [canonDigits, hc, hl, hz]
    · have hm0 : m = 0 := by omega
      subst hm0
      have h0 : natToDigits 0 = ['0'] := by decide
      rw [h0] at he
      have hcl : c = '0' ∧ l = [] := by
        constructor
        · have := congrArg (List.head? ·) he
          simpa using this.symm
        · have := congrArg (List.tail ·) he
          simpa using this.symm
      obtain ⟨rfl, rfl⟩ := hcl
      decide

theorem natToDigits_ne_zero_singleton (m : Nat) : natToDigits (m + 1) ≠ ['0'] := by
  intro h
  have hv := digitsToNat_natToDigits (m + 1)
  rw [h] at hv
  have h0 : digitsToNat ['0'] = 0 := by decide
  omega

theorem isCanonicalInt_intToString (n : Int) : isCanonicalInt (intToString n) = true := by
  rcases n with m | m
  · rw [intToString_ofNat]
    unfold isCanonicalInt
    have htl : (natToString m).toList = natToDigits m := rfl
    rw [htl]
    rcases he : natToDigits m with _ | ⟨c, l⟩
    · exact absurd he (natToDigits_ne_nil m)
    · have hc : c.isDigit = true := by
        apply natToDigits_digits m
        rw [he]
        exact List.mem_cons_self c l
      rw [if_neg (by simpa using ne_dash_of_isDigit hc)]
      exact he ▸ canonDigits_natToDigits m
  · rw [intToString_negSucc]
    unfold isCanonicalInt
    have htl : ("-" ++ natToString (m + 1)).toList = '-' :: natToDigits (m + 1) := rfl
    rw [htl, if_pos (show ('-' :: natToDigits (m + 1)).head? = some '-' from rfl)]
    simp only [List.tail_cons]
    rw [canonDigits_natToDigits (m + 1)]
    simp [natToDigits_ne_zero_singleton m]

theorem jsIntCheck_eq_none_of_not_canonical {s : String} (h : isCanonicalInt s = false) :
    jsIntCheck s = none := by
  rcases hc : jsIntCheck s with _ | n
  · rfl
  · have hs := intToString_of_jsIntCheck hc
    rw [← hs, isCanonicalInt_intToString] at h
    exact absurd h (by simp)

theorem jsOptFalsy_intToString (n : Int) : jsOptFalsy (some (intToString n)) = false := by
  unfold jsOptFalsy
  rw [beq_eq_false_iff_ne]
  exact intToString_ne_empty n

theorem jsOptTruthy_intToString (n : Int) : jsOptTruthy (some (intToString n)) = true := by
  unfold jsOptTruthy
  rw [jsOptFalsy_intToString]
  rfl

theorem intToString_bne_empty (n : Int) : (intToString n != "") = true := by
  simp [bne_iff_ne, intToString_ne_empty n]

/-- C8: for every call of validateAndGetGeoName with the id argument
absent, both server variants return null immediately, issue no query and
raise no error. -/
theorem validate_absent_id_returns_null :
    ∀ (db : Db) (tableName idCol nameCol parentIdCol : String) (parentId? : Option String),
      Srv.validateAndGetGeoName db none tableName idCol nameCol parentId? parentIdCol
          = (.ok .vNull, []) ∧
      P1.validateAndGetGeoName db none tableName idCol nameCol parentId? parentIdCol
          = (.ok .vNull, []) := by
  intro db tableName idCol nameCol parentIdCol parentId?
  exact ⟨rfl, rfl⟩

/-- C10: the disputed-bills and metering-status handlers read only the
year parameter: two requests with the same year produce identical
responses and identical issued queries, whatever their geographic
filters. -/
theorem year_only_kpi_endpoints_ignore_geo_filters (db : Db) (req1 req2 : Req)
    (h : req1.year = req2.year) :
    Srv.disputedBillsHandler db req1 = Srv.disputedBillsHandler db req2 ∧
    Srv.meteringStatusHandler db req1 = Srv.meteringStatusHandler db req2 := by
  refine ⟨?_, ?_⟩
  · simp only [Srv.disputedBillsHandler, h]
  · simp only [Srv.meteringStatusHandler, h]

/-- Witness for C10: same year, different circle/division/section filters,
identical handler output. -/
theorem year_only_kpi_endpoints_ignore_geo_filters_witness :
    Srv.disputedBillsHandler dbAllNames reqA = Srv.disputedBillsHandler dbAllNames reqGeoB ∧
    Srv.meteringStatusHandler dbAllNames reqA = Srv.meteringStatusHandler dbAllNames reqGeoB :=
  year_only_kpi_endpoints_ignore_geo_filters dbAllNames reqA reqGeoB rfl

/-- C3: validateAndGetGeoName returns the row's display name for every
canonically integer-formatted id that exists in its table (with or
without a parent constraint), and fails with the InvalidIdFormat error
carrying the column name and the raw value for every id that is not
integer-formatted (both server variants). -/
theorem validate_integer_ids_and_format_errors :
    (∀ (db : Db) (n : Int) (tableName idCol nameCol parentIdCol : String)
        (r : Row) (rest : List Row) (v : JsVal),
      db ("SELECT " ++ nameCol ++ " FROM " ++ tableName ++ " WHERE " ++ idCol ++ " = ?")
          [.vInt n] = .ok (r :: rest) →
      r.lookup nameCol = some v →
      Srv.validateAndGetGeoName db (some (intToString n)) tableName idCol nameCol none parentIdCol
        = (.ok v,
           [⟨"SELECT " ++ nameCol ++ " FROM " ++ tableName ++ " WHERE " ++ idCol ++ " = ?",
             [.vInt n]⟩])) ∧
    (∀ (db : Db) (n p : Int) (tableName idCol nameCol parentIdCol : String)
        (r : Row) (rest : List Row) (v : JsVal),
      db ("SELECT " ++ nameCol ++ " FROM " ++ tableName ++ " WHERE " ++ idCol ++ " = ?"
            ++ " AND " ++ parentIdCol ++ " = ?") [.vInt n, .vInt p] = .ok (r :: rest) →
      r.lookup nameCol = some v →
      Srv.validateAndGetGeoName db (some (intToString n)) tableName idCol nameCol
          (some (intToString p)) parentIdCol
        = (.ok v,
           [⟨"SELECT " ++ nameCol ++ " FROM " ++ tableName ++ " WHERE " ++ idCol ++ " = ?"
              ++ " AND " ++ parentIdCol ++ " = ?", [.vInt n, .vInt p]⟩])) ∧
    (∀ (db : Db) (s tableName idCol nameCol parentIdCol : String) (parentId? : Option String),
      isCanonicalInt s = false →
      Srv.validateAndGetGeoName db (some s) tableName idCol nameCol parentId? parentIdCol
        = (.error ("Invalid ID format for " ++ idCol ++ ": " ++ s ++ ". Must be an integer."),
           [])) ∧
    (∀ (db : Db) (s tableName idCol nameCol parentIdCol : String) (parentId? : Option String),
      isCanonicalInt s = false →
      P1.validateAndGetGeoName db (some s) tableName idCol nameCol parentId? parentIdCol
        = (.error ("Invalid ID format for " ++ idCol ++ ": " ++ s ++ ". Must be an integer."),
           [])) := by
  refine ⟨?_, ?_, ?_, ?_⟩
  · intro db n tableName idCol nameCol parentIdCol r rest v hdb hlook
    simp only [Srv.validateAndGetGeoName, jsIntCheck_intToString, Srv.finishLookup, hdb, hlook,
      Option.getD_some]
  · intro db n p tableName idCol nameCol parentIdCol r rest v hdb hlook
    simp only [Srv.validateAndGetGeoName, jsIntCheck_intToString, Srv.finishLookup, hdb, hlook,
      Option.getD_some]
  · intro db s tableName idCol nameCol parentIdCol parentId? hcanon
    simp only [Srv.validateAndGetGeoName, jsIntCheck_eq_none_of_not_canonical hcanon]
  · intro db s tableName idCol nameCol parentIdCol parentId? hcanon
    simp only [P1.validateAndGetGeoName, jsIntCheck_eq_none_of_not_canonical hcanon]

/-- Witness for C3: circle 5 exists with name North and is returned; the
non-integer inputs 12a and 3.5 are rejected with the format error. -/
theorem validate_integer_ids_and_format_errors_witness :
    Srv.validateAndGetGeoName dbAllNames (some "5") "Circles" "CircleID" "CircleName" none ""
      = (.ok (.vStr "North"),
         [⟨"SELECT CircleName FROM Circles WHERE CircleID = ?", [.vInt 5]⟩]) ∧
    Srv.validateAndGetGeoName dbAllNames (some "12a") "Circles" "CircleID" "CircleName" none ""
      = (.error "Invalid ID format for CircleID: 12a. Must be an integer.", []) ∧
    P1.validateAndGetGeoName dbAllNames (some "3.5") "Circles" "CircleID" "CircleName" none ""
      = (.error "Invalid ID format for CircleID: 3.5. Must be an integer.", []) := by
  refine ⟨?_, ?_, ?_⟩
  · exact validate_integer_ids_and_format_errors.1 dbAllNames 5 "Circles" "CircleID"
      "CircleName" "" rowAllNames [] (.vStr "North") rfl rfl
  · exact validate_integer_ids_and_format_errors.2.2.1 dbAllNames "12a" "Circles" "CircleID"
      "CircleName" "" none (by decide)
  · exact validate_integer_ids_and_format_errors.2.2.2 dbAllNames "3.5" "Circles" "CircleID"
      "CircleName" "" none (by decide)

/-- C4: a zero-row lookup fails with "Invalid idCol: id does not exist."
when no parent constraint was part of the query, and with the message
additionally saying "or does not belong to parentIdCol: parentId" when a
parent constraint was (both server variants). -/
theorem validate_notfound_messages :
    (∀ (db : Db) (n : Int) (tableName idCol nameCol parentIdCol : String),
      db ("SELECT " ++ nameCol ++ " FROM " ++ tableName ++ " WHERE " ++ idCol ++ " = ?")
          [.vInt n] = .ok [] →
      Srv.validateAndGetGeoName db (some (intToString n)) tableName idCol nameCol none parentIdCol
        = (.error ("Invalid " ++ idCol ++ ": " ++ intToString n ++ " does not exist."),
           [⟨"SELECT " ++ nameCol ++ " FROM " ++ tableName ++ " WHERE " ++ idCol ++ " = ?",
             [.vInt n]⟩])) ∧
    (∀ (db : Db) (n p : Int) (tableName idCol nameCol parentIdCol : String),
      db ("SELECT " ++ nameCol ++ " FROM " ++ tableName ++ " WHERE " ++ idCol ++ " = ?"
            ++ " AND " ++ parentIdCol ++ " = ?") [.vInt n, .vInt p] = .ok [] →
      Srv.validateAndGetGeoName db (some (intToString n)) tableName idCol nameCol
          (some (intToString p)) parentIdCol
        = (.error ("Invalid " ++ idCol ++ ": " ++ intToString n
            ++ " does not exist or does not belong to " ++ parentIdCol ++ ": "
            ++ intToString p ++ "."),
           [⟨"SELECT " ++ nameCol ++ " FROM " ++ tableName ++ " WHERE " ++ idCol ++ " = ?"
              ++ " AND " ++ parentIdCol ++ " = ?", [.vInt n, .vInt p]⟩])) ∧
    (∀ (db : Db) (n : Int) (tableName idCol nameCol parentIdCol : String),
      db ("SELECT " ++ nameCol ++ " FROM " ++ tableName ++ " WHERE " ++ idCol ++ " = ?")
          [.vInt n] = .ok [] →
      P1.validateAndGetGeoName db (some (intToString n)) tableName idCol nameCol none parentIdCol
        = (.error ("Invalid " ++ idCol ++ ": " ++ intToString n ++ " does not exist."),
           [⟨"SELECT " ++ nameCol ++ " FROM " ++ tableName ++ " WHERE " ++ idCol ++ " = ?",
             [.vInt n]⟩])) ∧
    (∀ (db : Db) (n p : Int) (tableName idCol nameCol parentIdCol : String),
      db ("SELECT " ++ nameCol ++ " FROM " ++ tableName ++ " WHERE " ++ idCol ++ " = ?"
            ++ " AND " ++ parentIdCol ++ " = ?") [.vInt n, .vInt p] = .ok [] →
      P1.validateAndGetGeoName db (some (intToString n)) tableName idCol nameCol
          (some (intToString p)) parentIdCol
        = (.error ("Invalid " ++ idCol ++ ": " ++ intToString n ++ " does not exist"
            ++ (" or does not belong to " ++ parentIdCol ++ ": " ++ intToString p) ++ "."),
           [⟨"SELECT " ++ nameCol ++ " FROM " ++ tableName ++ " WHERE " ++ idCol ++ " = ?"
              ++ " AND " ++ parentIdCol ++ " = ?", [.vInt n, .vInt p]⟩])) := by
  refine ⟨?_, ?_, ?_, ?_⟩
  · intro db n tableName idCol nameCol parentIdCol hdb
    simp only [Srv.validateAndGetGeoName, jsIntCheck_intToString, Srv.finishLookup, hdb]
  · intro db n p tableName idCol nameCol parentIdCol hdb
    simp only [Srv.validateAndGetGeoName, jsIntCheck_intToString, Srv.finishLookup, hdb]
  · intro db n tableName idCol nameCol parentIdCol hdb
    simp only [P1.validateAndGetGeoName, jsIntCheck_intToString, P1.finishLookup, hdb]
    rw [String.append_empty, String.append_assoc,
      show (" does not exist" ++ ".") = " does not exist." from by decide]
  · intro db n p tableName idCol nameCol parentIdCol hdb
    simp only [P1.validateAndGetGeoName, jsIntCheck_intToString, P1.finishLookup, hdb,
      intToString_bne_empty, if_true]

/-- Witness for C4: subdivision 999 does not exist (no-parent message);
section 42 under subdivision 7 is missing (membership message); the same
two scenarios through the part_001 validator. -/
theorem validate_notfound_messages_witness :
    Srv.validateAndGetGeoName dbEmpty (some "999") "Subdivisions" "SubdivisionID"
        "SubdivisionName" none ""
      = (.error "Invalid SubdivisionID: 999 does not exist.",
         [⟨"SELECT SubdivisionName FROM Subdivisions WHERE SubdivisionID = ?", [.vInt 999]⟩]) ∧
    Srv.validateAndGetGeoName dbEmpty (some "42") "Sections" "SectionID" "SectionName"
        (some "7") "SubdivisionID"
      = (.error "Invalid SectionID: 42 does not exist or does not belong to SubdivisionID: 7.",
         [⟨"SELECT SectionName FROM Sections WHERE SectionID = ? AND SubdivisionID = ?",
           [.vInt 42, .vInt 7]⟩]) ∧
    P1.validateAndGetGeoName dbEmpty (some "999") "Subdivisions" "SubdivisionID"
        "SubdivisionName" none ""
      = (.error "Invalid SubdivisionID: 999 does not exist.",
         [⟨"SELECT SubdivisionName FROM Subdivisions WHERE SubdivisionID = ?", [.vInt 999]⟩]) ∧
    P1.validateAndGetGeoName dbEmpty (some "42") "Sections" "SectionID" "SectionName"
        (some "7") "SubdivisionID"
      = (.error "Invalid SectionID: 42 does not exist or does not belong to SubdivisionID: 7.",
         [⟨"SELECT SectionName FROM Sections WHERE SectionID = ? AND SubdivisionID = ?",
           [.vInt 42, .vInt 7]⟩]) := by
  refine ⟨?_, ?_, ?_, ?_⟩
  · exact validate_notfound_messages.1 dbEmpty 999 "Subdivisions" "SubdivisionID"
      "SubdivisionName" "" rfl
  · exact validate_notfound_messages.2.1 dbEmpty 42 7 "Sections" "SectionID" "SectionName"
      "SubdivisionID" rfl
  · exact validate_notfound_messages.2.2.1 dbEmpty 999 "Subdivisions" "SubdivisionID"
      "SubdivisionName" "" rfl
  · exact validate_notfound_messages.2.2.2 dbEmpty 42 7 "Sections" "SectionID" "SectionName"
      "SubdivisionID" rfl

theorem catchResp_status_ne (tableName m : String) : (Srv.catchResp tableName m).status ≠ 200 := by
  unfold Srv.catchResp
  split <;> simp

theorem validate_ok_shape {db : Db} (hg : goodDb db)
    {ids tableName idCol nameCol parentIdCol : String}
    {parentId? : Option String} {v : JsVal} {log : List Issued}
    (hnc : nameCol ∈ nameCols)
    (h : Srv.validateAndGetGeoName db (some ids) tableName idCol nameCol parentId? parentIdCol
      = (.ok v, log)) :
    jsTruthy v = true ∧
    log.map Issued.sql = [valSqlShape tableName idCol nameCol parentIdCol parentId?.isSome] ∧
    (∀ pp, parentId? = some pp → pp ≠ "") := by
  rcases hci : jsIntCheck ids with _ | parsedId
  · simp only [Srv.validateAndGetGeoName, hci] at h
    exact absurd h (by simp)
  · rcases parentId? with _ | parentId
    · rcases hdb : db ("SELECT " ++ nameCol ++ " FROM " ++ tableName ++ " WHERE "
          ++ idCol ++ " = ?") [JsVal.vInt parsedId] with m | rows
      · simp only [Srv.validateAndGetGeoName, Srv.finishLookup, hci, hdb] at h
        exact absurd h (by simp)
      · rcases rows with _ | ⟨r, rest⟩
        · simp only [Srv.validateAndGetGeoName, Srv.finishLookup, hci, hdb] at h
          exact absurd h (by simp)
        · simp only [Srv.validateAndGetGeoName, Srv.finishLookup, hci, hdb,
            Prod.mk.injEq, Except.ok.injEq] at h
          obtain ⟨hv, hlog⟩ := h
          subst hlog
          obtain ⟨s, hls, hne⟩ := hg _ _ r rest hdb nameCol hnc
          refine ⟨?_, ?_, ?_⟩
          · rw [← hv, hls, Option.getD_some]
            simp [jsTruthy, bne_iff_ne, hne]
          · simp [valSqlShape]
          · intro pp hpp
            exact absurd hpp (by simp)
    · rcases hcp : jsIntCheck parentId with _ | parsedParent
      · simp only [Srv.validateAndGetGeoName, hci, hcp] at h
        exact absurd h (by simp)
      · rcases hdb : db ("SELECT " ++ nameCol ++ " FROM " ++ tableName ++ " WHERE "
            ++ idCol ++ " = ?" ++ " AND " ++ parentIdCol ++ " = ?")
            [JsVal.vInt parsedId, JsVal.vInt parsedParent] with m | rows
        · simp only [Srv.validateAndGetGeoName, Srv.finishLookup, hci, hcp, hdb] at h
          exact absurd h (by simp)
        · rcases rows with _ | ⟨r, rest⟩
          · simp only [Srv.validateAndGetGeoName, Srv.finishLookup, hci, hcp, hdb] at h
            exact absurd h (by simp)
          · simp only [Srv.validateAndGetGeoName, Srv.finishLookup, hci, hcp, hdb,
              Prod.mk.injEq, Except.ok.injEq] at h
            obtain ⟨hv, hlog⟩ := h
            subst hlog
            obtain ⟨s, hls, hne⟩ := hg _ _ r rest hdb nameCol hnc
            refine ⟨?_, ?_, ?_⟩
            · rw [← hv, hls, Option.getD_some]
              simp [jsTruthy, bne_iff_ne, hne]
            · simp [valSqlShape]
            · intro pp hpp
              injection hpp with hpp
              subst hpp
              rw [← intToString_of_jsIntCheck hcp]
              exact intToString_ne_empty parsedParent

theorem optValidate_ok_shape {db : Db} (hg : goodDb db) {id? parentId? : Option String}
    {tableName idCol nameCol parentIdCol : String} {v : JsVal} {log : List Issued}
    (hnc : nameCol ∈ nameCols)
    (h : Srv.optValidate db id? tableName idCol nameCol parentId? parentIdCol = (.ok v, log)) :
    (jsOptTruthy id? = false ∧ v = .vUndef ∧ log = []) ∨
    (jsOptTruthy id? = true ∧ jsTruthy v = true ∧
      log.map Issued.sql = [valSqlShape tableName idCol nameCol parentIdCol parentId?.isSome] ∧
      (∀ pp, parentId? = some pp → pp ≠ "")) := by
  unfold Srv.optValidate at h
  by_cases ht : jsOptTruthy id? = true
  · rw [if_pos ht] at h
    rcases id? with _ | ids
    · exact absurd ht (by simp [jsOptTruthy, jsOptFalsy])
    · right
      obtain ⟨h1, h2, h3⟩ := validate_ok_shape hg hnc h
      exact ⟨ht, h1, h2, h3⟩
  · rw [if_neg ht] at h
    left
    injection h with h1 h2
    injection h1 with hv
    exact ⟨by simpa using ht, hv.symm, h2.symm⟩

theorem buildKpiQuery_sql (tableName labelKey valueKey : String) (cn : JsVal) (yi : Int)
    (dn sn secn : JsVal) :
    (Srv.buildKpiQuery tableName labelKey valueKey cn yi dn sn secn).1 =
      kpiSqlShape tableName labelKey valueKey (jsTruthy dn) (jsTruthy sn) (jsTruthy secn) := by
  unfold Srv.buildKpiQuery kpiSqlShape
  cases hd : jsTruthy dn <;> cases hs : jsTruthy sn <;> cases hsec : jsTruthy secn <;>
    simp [hd, hs, hsec]

theorem optValidate_flag_shape {db : Db} (hg : goodDb db) {id? parentId? : Option String}
    {tableName idCol nameCol parentIdCol : String} {v : JsVal} {log : List Issued}
    (hnc : nameCol ∈ nameCols)
    (h : Srv.optValidate db id? tableName idCol nameCol parentId? parentIdCol = (.ok v, log)) :
    jsTruthy v = jsOptTruthy id? ∧
    log.map Issued.sql =
      (if jsOptTruthy id? = true then
        [valSqlShape tableName idCol nameCol parentIdCol (jsOptTruthy parentId?)]
      else []) := by
  rcases optValidate_ok_shape hg hnc h with ⟨hf, hv, hl⟩ | ⟨ht, htr, hmap, hguard⟩
  · subst hv
    subst hl
    rw [hf]
    exact ⟨rfl, by simp⟩
  · rw [ht, htr]
    refine ⟨rfl, ?_⟩
    rw [if_pos rfl, hmap]
    have hps : parentId?.isSome = jsOptTruthy parentId? := by
      rcases parentId? with _ | pp
      · rfl
      · have hne := hguard pp rfl
        simp [jsOptTruthy, jsOptFalsy, hne]
    rw [hps]

theorem fetchKPI_log_shape {tableName labelKey valueKey : String} {db : Db} {req : Req}
    (hg : goodDb db)
    (h : (Srv.fetchKPI tableName labelKey valueKey db req).1.status = 200) :
    (Srv.fetchKPI tableName labelKey valueKey db req).2.map Issued.sql =
      srvLogShape tableName labelKey valueKey (jsOptTruthy req.divisionId)
        (jsOptTruthy req.subdivisionId) (jsOptTruthy req.sectionId) := by
  unfold Srv.fetchKPI at h ⊢
  split at h
  · simp at h
  · rename_i hcf
    rw [if_neg hcf]
    split at h
    · simp at h
    · rename_i hyf
      rw [if_neg hyf]
      split at h
      · simp at h
      · rename_i yi hyc
        split at h
        · rename_i m l1 heq1
          exact absurd h (by simpa using catchResp_status_ne tableName m)
        · rename_i circleName l1 heq1
          split at h
          · rename_i m l2 heq2
            exact absurd h (by simpa using catchResp_status_ne tableName m)
          · rename_i divisionName l2 heq2
            split at h
            · rename_i m l3 heq3
              exact absurd h (by simpa using catchResp_status_ne tableName m)
            · rename_i subdivisionName l3 heq3
              split at h
              · rename_i m l4 heq4
                exact absurd h (by simpa using catchResp_status_ne tableName m)
              · rename_i sectionName l4 heq4
                have hqex : ∃ qp, Srv.buildKpiQuery tableName labelKey valueKey circleName yi
                    divisionName subdivisionName sectionName = qp := ⟨_, rfl⟩
                obtain ⟨⟨q, ps⟩, hq⟩ := hqex
                rw [hq] at h ⊢
                simp only [] at h ⊢
                rcases hdb : db q ps with m | rows
                · simp only [hdb] at h
                  exact absurd h (by simpa using catchResp_status_ne tableName m)
                · simp only [hdb] at h ⊢
                  have hc0 : jsOptFalsy req.circleId = false := by simpa using hcf
                  have hc1 : jsOptTruthy req.circleId = true := by
                    simp [jsOptTruthy, hc0]
                  rcases hreqc : req.circleId with _ | cid
                  · rw [hreqc] at hc0
                    exact absurd hc0 (by simp [jsOptFalsy])
                  · rw [hreqc] at heq1
                    obtain ⟨htr1, hmap1, _⟩ := validate_ok_shape hg (by simp [nameCols]) heq1
                    obtain ⟨hfd, hmd⟩ := optValidate_flag_shape hg (by simp [nameCols]) heq2
                    obtain ⟨hfs, hms⟩ := optValidate_flag_shape hg (by simp [nameCols]) heq3
                    obtain ⟨hfsec, hmsec⟩ := optValidate_flag_shape hg (by simp [nameCols]) heq4
                    have hqs : q = kpiSqlShape tableName labelKey valueKey
                        (jsTruthy divisionName) (jsTruthy subdivisionName)
                        (jsTruthy sectionName) := by
                      have hb := buildKpiQuery_sql tableName labelKey valueKey circleName yi
                        divisionName subdivisionName sectionName
                      rw [hq] at hb
                      exact hb
                    simp only [List.map_append, hmap1, hmd, hms, hmsec, List.map_cons,
                      List.map_nil, hqs, hfd, hfs, hfsec, hc1, srvLogShape,
                      Option.isSome_none]

theorem goodDb_dbAllNames : goodDb dbAllNames := by
  intro q ps r rest h col hcol
  have h2 : Except.ok (ε := String) [rowAllNames] = Except.ok (r :: rest) := h
  injection h2 with h2
  have hr : r = rowAllNames := by
    have := congrArg (List.head? ·) h2
    simpa using this.symm
  subst hr
  fin_cases hcol
  · exact ⟨"North", rfl, by decide⟩
  · exact ⟨"Dn1", rfl, by decide⟩
  · exact ⟨"Sb1", rfl, by decide⟩
  · exact ⟨"Sc1", rfl, by decide⟩

/-- C1 (amended): over any database whose geographic display names are
non-empty, two successful KPI requests with the same pattern of supplied
(non-empty) optional filters generate exactly the same SQL text for every
issued query — the validation lookups and the final KPI query; request
values influence only the bound-parameter lists.  (As stated in the spec
the claim fails only in the corner where a stored display name is the
empty string, see the counterexample.) -/
theorem kpi_sql_depends_only_on_filter_pattern
    (tableName labelKey valueKey : String) (db : Db) (req1 req2 : Req)
    (hg : goodDb db)
    (hd : jsOptTruthy req1.divisionId = jsOptTruthy req2.divisionId)
    (hs : jsOptTruthy req1.subdivisionId = jsOptTruthy req2.subdivisionId)
    (hsec : jsOptTruthy req1.sectionId = jsOptTruthy req2.sectionId)
    (h1 : (Srv.fetchKPI tableName labelKey valueKey db req1).1.status = 200)
    (h2 : (Srv.fetchKPI tableName labelKey valueKey db req2).1.status = 200) :
    (Srv.fetchKPI tableName labelKey valueKey db req1).2.map Issued.sql =
      (Srv.fetchKPI tableName labelKey valueKey db req2).2.map Issued.sql := by
  rw [fetchKPI_log_shape hg h1, fetchKPI_log_shape hg h2, hd, hs, hsec]

/-- Witness for C1: two different circle/division selections with the
same key pattern produce identical SQL traces. -/
theorem kpi_sql_depends_only_on_filter_pattern_witness :
    (Srv.fetchKPI "billing_efficiency" "month" "value" dbAllNames reqA).2.map Issued.sql =
      (Srv.fetchKPI "billing_efficiency" "month" "value" dbAllNames reqB).2.map Issued.sql :=
  kpi_sql_depends_only_on_filter_pattern "billing_efficiency" "month" "value" dbAllNames
    reqA reqB goodDb_dbAllNames (by decide) (by decide) (by decide) (by decide) (by decide)

set_option maxRecDepth 100000 in
/-- C1 counterexample: two requests supplying exactly the same parameter
keys (circleId, divisionId, year), against a database in which division
2's display name is the empty string: both runs succeed with status 200,
yet the generated SQL differs — the empty name makes fetchKPI drop the
division clause from the KPI query text. -/
theorem kpi_sql_same_keys_counterexample :
    reqCE1.circleId.isSome = reqCE2.circleId.isSome ∧
    reqCE1.divisionId.isSome = reqCE2.divisionId.isSome ∧
    reqCE1.subdivisionId.isSome = reqCE2.subdivisionId.isSome ∧
    reqCE1.sectionId.isSome = reqCE2.sectionId.isSome ∧
    reqCE1.year.isSome = reqCE2.year.isSome ∧
    (Srv.fetchKPI "billing_efficiency" "month" "value" dbEmptyName reqCE1).1.status = 200 ∧
    (Srv.fetchKPI "billing_efficiency" "month" "value" dbEmptyName reqCE2).1.status = 200 ∧
    (Srv.fetchKPI "billing_efficiency" "month" "value" dbEmptyName reqCE1).2.map Issued.sql ≠
      (Srv.fetchKPI "billing_efficiency" "month" "value" dbEmptyName reqCE2).2.map Issued.sql := by
  decide

/-- C2 (amended): in server.js's fetchKPI with all four geographic
filters supplied as canonical integers, the validation lookups are issued
in hierarchy order — circle, division, subdivision, section — each
level's own ID bound as the parent parameter of the next level's lookup;
when a validation fails, the run stops with an error status after that
prefix of lookups and the KPI table is never queried, and only when all
four succeed is exactly one further query, the KPI query, issued.  (In
the part_001 variant the loop validates in the same order and a failure
aborts before the KPI query, but no parent ID is threaded — each lookup
checks existence only; see the counterexample.) -/
theorem hierarchy_validation_order_and_short_circuit
    (tableName labelKey valueKey : String) (db : Db) (c d s sec y : Int) :
    (∃ j, 1 ≤ j ∧ j ≤ 4 ∧
      (Srv.fetchKPI tableName labelKey valueKey db (allFiltersReq c d s sec y)).2
        = (threadedIssued c d s sec).take j ∧
      (Srv.fetchKPI tableName labelKey valueKey db (allFiltersReq c d s sec y)).1.status ≠ 200)
    ∨ (∃ kq, (Srv.fetchKPI tableName labelKey valueKey db (allFiltersReq c d s sec y)).2
        = threadedIssued c d s sec ++ [kq] ∧
      ∃ b1 b2 b3, kq.sql = kpiSqlShape tableName labelKey valueKey b1 b2 b3) := by
  simp only [Srv.fetchKPI, allFiltersReq, Srv.validateAndGetGeoName, Srv.optValidate,
    Srv.finishLookup, jsOptFalsy_intToString, jsOptTruthy_intToString, jsIntCheck_intToString,
    Bool.false_eq_true, if_false, if_true, Option.getD_some]
  rcases hdb1 : db ("SELECT " ++ "CircleName" ++ " FROM " ++ "Circles" ++ " WHERE "
      ++ "CircleID" ++ " = ?") [JsVal.vInt c] with m | rows1
  · simp only [hdb1]
    exact Or.inl ⟨1, by omega, by omega, by simp [threadedIssued, valSqlShape],
      catchResp_status_ne tableName m⟩
  · rcases rows1 with _ | ⟨r1, t1⟩
    · simp only [hdb1]
      exact Or.inl ⟨1, by omega, by omega, by simp [threadedIssued, valSqlShape],
        catchResp_status_ne tableName _⟩
    · simp only [hdb1]
      rcases hdb2 : db ("SELECT " ++ "DivisionName" ++ " FROM " ++ "Divisions" ++ " WHERE "
          ++ "DivisionID" ++ " = ?" ++ " AND " ++ "CircleID" ++ " = ?")
          [JsVal.vInt d, JsVal.vInt c] with m | rows2
      · simp only [hdb2]
        exact Or.inl ⟨2, by omega, by omega, by simp [threadedIssued, valSqlShape],
          catchResp_status_ne tableName m⟩
      · rcases rows2 with _ | ⟨r2, t2⟩
        · simp only [hdb2]
          exact Or.inl ⟨2, by omega, by omega, by simp [threadedIssued, valSqlShape],
            catchResp_status_ne tableName _⟩
        · simp only [hdb2]
          rcases hdb3 : db ("SELECT " ++ "SubdivisionName" ++ " FROM " ++ "Subdivisions"
              ++ " WHERE " ++ "SubdivisionID" ++ " = ?" ++ " AND " ++ "DivisionID" ++ " = ?")
              [JsVal.vInt s, JsVal.vInt d] with m | rows3
          · simp only [hdb3]
            exact Or.inl ⟨3, by omega, by omega, by simp [threadedIssued, valSqlShape],
              catchResp_status_ne tableName m⟩
          · rcases rows3 with _ | ⟨r3, t3⟩
            · simp only [hdb3]
              exact Or.inl ⟨3, by omega, by omega, by simp [threadedIssued, valSqlShape],
                catchResp_status_ne tableName _⟩
            · simp only [hdb3]
              rcases hdb4 : db ("SELECT " ++ "SectionName" ++ " FROM " ++ "Sections"
                  ++ " WHERE " ++ "SectionID" ++ " = ?" ++ " AND " ++ "SubdivisionID"
                  ++ " = ?") [JsVal.vInt sec, JsVal.vInt s] with m | rows4
              · simp only [hdb4]
                exact Or.inl ⟨4, by omega, by omega, by simp [threadedIssued, valSqlShape],
                  catchResp_status_ne tableName m⟩
              · rcases rows4 with _ | ⟨r4, t4⟩
                · simp only [hdb4]
                  exact Or.inl ⟨4, by omega, by omega, by simp [threadedIssued, valSqlShape],
                    catchResp_status_ne tableName _⟩
                · simp only [hdb4]
                  obtain ⟨⟨q, ps⟩, hq⟩ : ∃ qp, Srv.buildKpiQuery tableName labelKey valueKey
                      ((r1.lookup "CircleName").getD .vUndef) y
                      ((r2.lookup "DivisionName").getD .vUndef)
                      ((r3.lookup "SubdivisionName").getD .vUndef)
                      ((r4.lookup "SectionName").getD .vUndef) = qp := ⟨_, rfl⟩
                  rw [hq]
                  have hqs : q = kpiSqlShape tableName labelKey valueKey
                      (jsTruthy ((r2.lookup "DivisionName").getD .vUndef))
                      (jsTruthy ((r3.lookup "SubdivisionName").getD .vUndef))
                      (jsTruthy ((r4.lookup "SectionName").getD .vUndef)) := by
                    have hb := buildKpiQuery_sql tableName labelKey valueKey
                      ((r1.lookup "CircleName").getD .vUndef) y
                      ((r2.lookup "DivisionName").getD .vUndef)
                      ((r3.lookup "SubdivisionName").getD .vUndef)
                      ((r4.lookup "SectionName").getD .vUndef)
                    rw [hq] at hb
                    exact hb
                  rcases hdb5 : db q ps with m | rows
                  · simp only [hdb5]
                    exact Or.inr ⟨⟨q, ps⟩, by simp [threadedIssued, valSqlShape],
                      _, _, _, hqs⟩
                  · simp only [hdb5]
                    exact Or.inr ⟨⟨q, ps⟩, by simp [threadedIssued, valSqlShape],
                      _, _, _, hqs⟩

set_option maxRecDepth 100000 in
/-- C2 counterexample: in the part_001 variant, a request with
subdivisionId 1 and sectionId 7, where section 7 does not belong to
subdivision 1 (the membership lookup would return no rows), nevertheless
succeeds with status 200: every filter is validated by an existence-only
query with no parent constraint threaded, and the KPI table is queried. -/
theorem hierarchy_threading_counterexample :
    (P1.fetchKPI "billing_efficiency" ["Month", "Year", "Value"] dbP1CE reqP1CE).1.status
        = 200 ∧
    (P1.fetchKPI "billing_efficiency" ["Month", "Year", "Value"] dbP1CE reqP1CE).2.map
        Issued.sql =
      ["SELECT CircleName FROM Circles WHERE CircleID = ?",
       "SELECT SubdivisionName FROM Subdivisions WHERE SubdivisionID = ?",
       "SELECT SectionName FROM Sections WHERE SectionID = ?",
       "SELECT Month, Year, Value FROM billing_efficiency WHERE Year = ? AND CircleID = ? AND SubdivisionID = ? AND SectionID = ?"] ∧
    dbP1CE "SELECT SectionName FROM Sections WHERE SectionID = ? AND SubdivisionID = ?"
        [JsVal.vInt 7, JsVal.vInt 1] = .ok [] :=
  ⟨by decide, by decide, rfl⟩

theorem strStartsWith_append (pre a b : String) (h : strStartsWith a pre = true) :
    strStartsWith (a ++ b) pre = true := by
  unfold strStartsWith at h ⊢
  rw [List.isPrefixOf_iff_prefix] at h ⊢
  have htl : (a ++ b).toList = a.toList ++ b.toList := rfl
  rw [htl]
  exact h.trans (List.prefix_append _ _)

theorem fetchKPI_kpi_db_error (tableName labelKey valueKey : String) (db : Db)
    (c y : Int) (m : String) (r : Row) (rest : List Row)
    (hdb1 : db ("SELECT " ++ "CircleName" ++ " FROM " ++ "Circles" ++ " WHERE "
      ++ "CircleID" ++ " = ?") [.vInt c] = .ok (r :: rest))
    (hkpi : db (Srv.buildKpiQuery tableName labelKey valueKey
          ((r.lookup "CircleName").getD .vUndef) y .vUndef .vUndef .vUndef).1
        (Srv.buildKpiQuery tableName labelKey valueKey
          ((r.lookup "CircleName").getD .vUndef) y .vUndef .vUndef .vUndef).2
      = .error m) :
    (Srv.fetchKPI tableName labelKey valueKey db
        { circleId := some (intToString c), year := some (intToString y) }).1
      = Srv.catchResp tableName m := by
  unfold Srv.fetchKPI
  simp only [jsOptFalsy_intToString, Bool.false_eq_true, if_false, Option.getD_some,
    jsIntCheck_intToString]
  simp only [Srv.validateAndGetGeoName, jsIntCheck_intToString, Srv.finishLookup, hdb1]
  simp only [Srv.optValidate, show jsOptTruthy none = false from rfl, Bool.false_eq_true,
    if_false]
  obtain ⟨⟨q, ps⟩, hq⟩ : ∃ qp, Srv.buildKpiQuery tableName labelKey valueKey
      ((r.lookup "CircleName").getD .vUndef) y .vUndef .vUndef .vUndef = qp := ⟨_, rfl⟩
  rw [hq] at hkpi ⊢
  simp only [] at hkpi ⊢
  simp only [hkpi]

set_option maxRecDepth 100000 in
/-- C5 counterexample: a client-caused InvalidIdFormat failure reported
as 500.  Request circleId=1, divisionId= (empty string), subdivisionId=5,
year=2024: the empty divisionId skips division validation but is passed
as the subdivision lookup's parent ID, whose format check throws "Invalid
parent ID format for DivisionID: ..."; that message matches none of the
catch block's 400 patterns, so the handler answers 500. -/
theorem error_status_mapping_counterexample :
    Srv.fetchKPI "billing_efficiency" "month" "value" dbCircleOnly reqEmptyDivision =
      (⟨500, .err "Failed to fetch KPI: billing_efficiency"⟩,
       [⟨"SELECT CircleName FROM Circles WHERE CircleID = ?", [.vInt 1]⟩]) := by
  decide

/-- C5 (amended): the 400-vs-500 split in server.js's fetchKPI is decided
by matching the thrown message against the client-error patterns (the
prefixes "Invalid ID format", "Invalid CircleID", "Invalid DivisionID",
"Invalid SubdivisionID", "Invalid SectionID", or containing "required").
Invalid-format and not-found failures on the circle, and a missing
circleId, are answered 400; a data-source error on the KPI query is
answered 500 when its message matches no client pattern but 400 when it
does (for example a driver message containing "required"); and the
client-caused parent-ID-format error, reachable with an empty divisionId
next to a supplied subdivisionId, matches no pattern and is answered
500.  In the part_001 variant both the divisions handler and the
fetchKPI handler answer 400 for every failure, including data-source
errors. -/
theorem error_status_mapping_amended :
    (∀ (tableName labelKey valueKey s : String) (db : Db) (req : Req),
      req.circleId = some s → s ≠ "" → isCanonicalInt s = false →
      jsOptFalsy req.year = false → (∃ yi, jsIntCheck (req.year.getD "") = some yi) →
      (Srv.fetchKPI tableName labelKey valueKey db req).1
        = ⟨400, .err ("Invalid ID format for " ++ "CircleID" ++ ": " ++ s
            ++ ". Must be an integer.")⟩) ∧
    (∀ (tableName labelKey valueKey : String) (db : Db) (req : Req) (c : Int),
      req.circleId = some (intToString c) →
      jsOptFalsy req.year = false → (∃ yi, jsIntCheck (req.year.getD "") = some yi) →
      db ("SELECT " ++ "CircleName" ++ " FROM " ++ "Circles" ++ " WHERE " ++ "CircleID"
          ++ " = ?") [.vInt c] = .ok [] →
      (Srv.fetchKPI tableName labelKey valueKey db req).1
        = ⟨400, .err ("Invalid " ++ "CircleID" ++ ": " ++ intToString c
            ++ " does not exist.")⟩) ∧
    (∀ (tableName labelKey valueKey : String) (db : Db) (req : Req) (c sd : Int)
        (r : Row) (rest : List Row),
      req.circleId = some (intToString c) → req.divisionId = some "" →
      req.subdivisionId = some (intToString sd) →
      jsOptFalsy req.year = false → (∃ yi, jsIntCheck (req.year.getD "") = some yi) →
      db ("SELECT " ++ "CircleName" ++ " FROM " ++ "Circles" ++ " WHERE " ++ "CircleID"
          ++ " = ?") [.vInt c] = .ok (r :: rest) →
      (Srv.fetchKPI tableName labelKey valueKey db req).1
        = ⟨500, .err ("Failed to fetch KPI: " ++ tableName)⟩) ∧
    (∀ (db : Db) (c : Int) (m : String),
      db ("SELECT " ++ "CircleName" ++ " FROM " ++ "Circles" ++ " WHERE " ++ "CircleID"
          ++ " = ?") [.vInt c] = .error m →
      (P1.divisionsHandler db (some (intToString c))).1 = ⟨400, .err m⟩) ∧
    (∀ (tableName labelKey valueKey : String) (db : Db) (req : Req),
      jsOptFalsy req.circleId = true →
      (Srv.fetchKPI tableName labelKey valueKey db req).1
        = ⟨400, .err "circleId is required for KPI data."⟩) ∧
    (∀ (tableName labelKey valueKey : String) (db : Db) (c y : Int) (m : String)
        (r : Row) (rest : List Row),
      db ("SELECT " ++ "CircleName" ++ " FROM " ++ "Circles" ++ " WHERE " ++ "CircleID"
          ++ " = ?") [.vInt c] = .ok (r :: rest) →
      db (Srv.buildKpiQuery tableName labelKey valueKey
            ((r.lookup "CircleName").getD .vUndef) y .vUndef .vUndef .vUndef).1
          (Srv.buildKpiQuery tableName labelKey valueKey
            ((r.lookup "CircleName").getD .vUndef) y .vUndef .vUndef .vUndef).2
        = .error m →
      Srv.is400Msg m = false →
      (Srv.fetchKPI tableName labelKey valueKey db
          { circleId := some (intToString c), year := some (intToString y) }).1
        = ⟨500, .err ("Failed to fetch KPI: " ++ tableName)⟩) ∧
    (∀ (tableName labelKey valueKey : String) (db : Db) (c y : Int) (m : String)
        (r : Row) (rest : List Row),
      db ("SELECT " ++ "CircleName" ++ " FROM " ++ "Circles" ++ " WHERE " ++ "CircleID"
          ++ " = ?") [.vInt c] = .ok (r :: rest) →
      db (Srv.buildKpiQuery tableName labelKey valueKey
            ((r.lookup "CircleName").getD .vUndef) y .vUndef .vUndef .vUndef).1
          (Srv.buildKpiQuery tableName labelKey valueKey
            ((r.lookup "CircleName").getD .vUndef) y .vUndef .vUndef .vUndef).2
        = .error m →
      Srv.is400Msg m = true →
      (Srv.fetchKPI tableName labelKey valueKey db
          { circleId := some (intToString c), year := some (intToString y) }).1
        = ⟨400, .err m⟩) ∧
    (∀ (db : Db) (m : String) (r : Row) (rest : List Row),
      db ("SELECT " ++ "CircleName" ++ " FROM " ++ "Circles" ++ " WHERE " ++ "CircleID"
          ++ " = ?") [.vInt 1] = .ok (r :: rest) →
      db ("SELECT " ++ String.intercalate ", " ["Month", "Year", "Value"] ++ " FROM "
          ++ "billing_efficiency" ++ " WHERE "
          ++ String.intercalate " AND " (["Year = ?"] ++ ["CircleID" ++ " = ?"]))
        ([JsVal.vInt 2024] ++ [JsVal.vStr "1"]) = .error m →
      (P1.fetchKPI "billing_efficiency" ["Month", "Year", "Value"] db
          { circleId := some "1", year := some "2024" }).1 = ⟨400, .err m⟩) := by
  refine ⟨?_, ?_, ?_, ?_, ?_, ?_, ?_, ?_⟩
  · rintro tableName labelKey valueKey s db req hreq hne hcanon hyf ⟨yi, hyi⟩
    unfold Srv.fetchKPI
    have hf : jsOptFalsy req.circleId = false := by
      rw [hreq]
      simp [jsOptFalsy, hne]
    simp only [hf, hyf, Bool.false_eq_true, if_false, hyi]
    simp only [hreq, Srv.validateAndGetGeoName, jsIntCheck_eq_none_of_not_canonical hcanon]
    have h400 : Srv.is400Msg ("Invalid ID format for " ++ "CircleID" ++ ": " ++ s
        ++ ". Must be an integer.") = true := by
      have h1 : strStartsWith ("Invalid ID format for CircleID: " ++ s
          ++ ". Must be an integer.") "Invalid ID format" = true := by
        apply strStartsWith_append
        apply strStartsWith_append
        decide
      simp [Srv.is400Msg, h1]
    simp only [Srv.catchResp, h400, if_true]
  · rintro tableName labelKey valueKey db req c hreq hyf ⟨yi, hyi⟩ hdb
    unfold Srv.fetchKPI
    have hf : jsOptFalsy req.circleId = false := by
      rw [hreq]
      exact jsOptFalsy_intToString c
    simp only [hf, hyf, Bool.false_eq_true, if_false, hyi]
    simp only [hreq, Srv.validateAndGetGeoName, jsIntCheck_intToString, Srv.finishLookup, hdb]
    have h400 : Srv.is400Msg ("Invalid " ++ "CircleID" ++ ": " ++ intToString c
        ++ " does not exist.") = true := by
      have h1 : strStartsWith ("Invalid CircleID: " ++ intToString c
          ++ " does not exist.") "Invalid CircleID" = true := by
        apply strStartsWith_append
        apply strStartsWith_append
        decide
      simp [Srv.is400Msg, h1]
    simp only [Srv.catchResp, h400, if_true]
  · rintro tableName labelKey valueKey db req c sd r rest hreq hdiv hsub hyf ⟨yi, hyi⟩ hdb
    unfold Srv.fetchKPI
    have hf : jsOptFalsy req.circleId = false := by
      rw [hreq]
      exact jsOptFalsy_intToString c
    simp only [hf, hyf, Bool.false_eq_true, if_false, hyi]
    simp only [hreq, Srv.validateAndGetGeoName, jsIntCheck_intToString, Srv.finishLookup, hdb]
    have hdf : jsOptTruthy req.divisionId = false := by
      rw [hdiv]
      decide
    simp only [Srv.optValidate, hdf, Bool.false_eq_true, if_false]
    simp only [hsub, hdiv, jsOptTruthy_intToString, if_true, Srv.validateAndGetGeoName,
      jsIntCheck_intToString, show jsIntCheck "" = none from rfl]
    have hnot : Srv.is400Msg ("Invalid parent ID format for " ++ "DivisionID" ++ ": " ++ ""
        ++ ". Must be an integer.") = false := by decide
    simp only [Srv.catchResp, hnot, Bool.false_eq_true, if_false]
  · intro db c m hdb
    unfold P1.divisionsHandler
    have hf : jsOptFalsy (some (intToString c)) = false := jsOptFalsy_intToString c
    simp only [hf, Bool.false_eq_true, if_false, P1.validateAndGetGeoName, P1.finishLookup,
      jsIntCheck_intToString, hdb]
  · intro tableName labelKey valueKey db req hc
    unfold Srv.fetchKPI
    simp [hc]
  · intro tableName labelKey valueKey db c y m r rest hdb1 hkpi hnot
    rw [fetchKPI_kpi_db_error tableName labelKey valueKey db c y m r rest hdb1 hkpi]
    simp only [Srv.catchResp, hnot, Bool.false_eq_true, if_false]
  · intro tableName labelKey valueKey db c y m r rest hdb1 hkpi h400
    rw [fetchKPI_kpi_db_error tableName labelKey valueKey db c y m r rest hdb1 hkpi]
    simp only [Srv.catchResp, h400, if_true]
  · intro db m r rest hdb1 hkpi
    unfold P1.fetchKPI
    simp only [show jsOptFalsy (some "1") = false from rfl,
      show jsOptFalsy (some "2024") = false from rfl, Bool.or_false, Bool.false_eq_true,
      if_false, show jsParseInt "2024" = some (2024 : Int) from rfl]
    simp only [P1.kpiStep, show jsOptTruthy (some "1") = true from rfl, if_true,
      show jsOptTruthy none = false from rfl, Bool.false_eq_true, if_false,
      P1.validateAndGetGeoName, show jsIntCheck "1" = some (1 : Int) from rfl,
      P1.finishLookup, hdb1, Option.getD_some]
    simp only [show jsParseInt "2024" = some (2024 : Int) from rfl]
    simp only [hkpi]

set_option maxRecDepth 100000 in
/-- Witness for C5 (amended) at concrete inputs: format error 400,
not-found 400, the parent-format slip 500, a part_001 connectivity error
in the divisions handler reported as 400, missing circleId 400, a KPI
database error answered 500, a KPI database error whose driver message
contains "required" answered 400, and a part_001 KPI database error
answered 400. -/
theorem error_status_mapping_amended_witness :
    (Srv.fetchKPI "billing_efficiency" "month" "value" dbEmpty
        { circleId := some "12a", year := some "2024" }).1
      = ⟨400, .err "Invalid ID format for CircleID: 12a. Must be an integer."⟩ ∧
    (Srv.fetchKPI "billing_efficiency" "month" "value" dbEmpty
        { circleId := some "5", year := some "2024" }).1
      = ⟨400, .err "Invalid CircleID: 5 does not exist."⟩ ∧
    (Srv.fetchKPI "billing_efficiency" "month" "value" dbCircleOnly reqEmptyDivision).1
      = ⟨500, .err "Failed to fetch KPI: billing_efficiency"⟩ ∧
    (P1.divisionsHandler dbErr (some "3")).1
      = ⟨400, .err "connect ECONNREFUSED 127.0.0.1:3306"⟩ ∧
    (Srv.fetchKPI "billing_efficiency" "month" "value" dbEmpty reqNone).1
      = ⟨400, .err "circleId is required for KPI data."⟩ ∧
    (Srv.fetchKPI "billing_efficiency" "month" "value" dbKpiErr
        { circleId := some "1", year := some "2024" }).1
      = ⟨500, .err "Failed to fetch KPI: billing_efficiency"⟩ ∧
    (Srv.fetchKPI "billing_efficiency" "month" "value" dbKpiErrRequired
        { circleId := some "1", year := some "2024" }).1
      = ⟨400, .err "Connections using insecure transport are prohibited; secure transport required"⟩ ∧
    (P1.fetchKPI "billing_efficiency" ["Month", "Year", "Value"] dbKpiErr
        { circleId := some "1", year := some "2024" }).1
      = ⟨400, .err "connect ECONNREFUSED 127.0.0.1:3306"⟩ := by
  refine ⟨?_, ?_, ?_, ?_, ?_, ?_, ?_, ?_⟩
  · exact error_status_mapping_amended.1 "billing_efficiency" "month" "value" "12a" dbEmpty
      { circleId := some "12a", year := some "2024" } rfl (by decide) (by decide) (by decide)
      ⟨2024, by decide⟩
  · exact error_status_mapping_amended.2.1 "billing_efficiency" "month" "value" dbEmpty
      { circleId := some "5", year := some "2024" } 5 rfl (by decide) ⟨2024, by decide⟩ rfl
  · exact error_status_mapping_amended.2.2.1 "billing_efficiency" "month" "value" dbCircleOnly
      reqEmptyDivision 1 5 [("CircleName", JsVal.vStr "North")] [] rfl rfl rfl (by decide)
      ⟨2024, by decide⟩ rfl
  · exact error_status_mapping_amended.2.2.2.1 dbErr 3 "connect ECONNREFUSED 127.0.0.1:3306"
      rfl
  · exact error_status_mapping_amended.2.2.2.2.1 "billing_efficiency" "month" "value" dbEmpty
      reqNone (by decide)
  · exact error_status_mapping_amended.2.2.2.2.2.1 "billing_efficiency" "month" "value"
      dbKpiErr 1 2024 "connect ECONNREFUSED 127.0.0.1:3306"
      [("CircleName", JsVal.vStr "North")] [] rfl rfl (by decide)
  · exact error_status_mapping_amended.2.2.2.2.2.2.1 "billing_efficiency" "month" "value"
      dbKpiErrRequired 1 2024
      "Connections using insecure transport are prohibited; secure transport required"
      [("CircleName", JsVal.vStr "North")] [] rfl rfl (by decide)
  · exact error_status_mapping_amended.2.2.2.2.2.2.2 dbKpiErr
      "connect ECONNREFUSED 127.0.0.1:3306" [("CircleName", JsVal.vStr "North")] [] rfl rfl

set_option maxRecDepth 100000 in
/-- C7 counterexample: when the years table lacks its year column (the
database fails the query with a schema error), the years endpoint returns
500 with the fixed body {error: "Failed to fetch years"}: no
tablesChecked list, and no table name appears in the payload. -/
theorem years_schema_error_counterexample :
    Srv.yearsHandler dbSchemaErr
      = (⟨500, .err "Failed to fetch years"⟩, [⟨Srv.yearsSql, []⟩]) ∧
    strContains "Failed to fetch years" "tablesChecked" = false ∧
    strContains "Failed to fetch years" "billing_efficiency" = false := by
  decide

/-- C7 (amended): every database error on the years query — including a
missing year column — yields 500 with the fixed body
{error: "Failed to fetch years"}; the handler queries exactly one table,
billing_efficiency, and its failure payload names no tables. -/
theorem years_schema_error_amended :
    (∀ (db : Db) (m : String), db Srv.yearsSql [] = .error m →
      Srv.yearsHandler db = (⟨500, .err "Failed to fetch years"⟩, [⟨Srv.yearsSql, []⟩])) ∧
    (∀ db : Db, (Srv.yearsHandler db).2.map Issued.sql = [Srv.yearsSql]) ∧
    strContains Srv.yearsSql "billing_efficiency" = true := by
  refine ⟨?_, ?_, by decide⟩
  · intro db m hdb
    unfold Srv.yearsHandler
    simp [hdb]
  · intro db
    unfold Srv.yearsHandler
    rcases hdb : db Srv.yearsSql [] with m | rows <;> simp [hdb]

/-- Witness for C7 (amended): a connectivity failure on the years query
yields the fixed 500 body. -/
theorem years_schema_error_amended_witness :
    Srv.yearsHandler dbErr = (⟨500, .err "Failed to fetch years"⟩, [⟨Srv.yearsSql, []⟩]) :=
  years_schema_error_amended.1 dbErr "connect ECONNREFUSED 127.0.0.1:3306" rfl

set_option maxRecDepth 100000 in
/-- C9: in server.js's fetchKPI, when subdivisionId is supplied without
divisionId, the subdivision is validated by an existence-only lookup with
no parent constraint: the issued trace starts with the circle lookup and,
whenever the run gets past it, the subdivision lookup bound to the
subdivision ID alone.  Concretely, with a database in which no division
belongs to any circle, a subdivision (which therefore cannot belong to
the supplied circle) passes validation, the run returns 200, and the
subdivision filters the KPI query. -/
theorem parent_constraint_only_when_parent_supplied :
    (∀ (tableName labelKey valueKey : String) (db : Db) (c s y : Int),
      ∃ rest, (Srv.fetchKPI tableName labelKey valueKey db (subOnlyReq c s y)).2
          = ⟨"SELECT CircleName FROM Circles WHERE CircleID = ?", [.vInt c]⟩ :: rest ∧
        (rest = [] ∨ ∃ rest2,
          rest = ⟨"SELECT SubdivisionName FROM Subdivisions WHERE SubdivisionID = ?",
            [.vInt s]⟩ :: rest2)) ∧
    ((Srv.fetchKPI "billing_efficiency" "month" "value" dbSubNoParent reqSubOnly).1.status
        = 200 ∧
      (Srv.fetchKPI "billing_efficiency" "month" "value" dbSubNoParent reqSubOnly).2.map
          Issued.sql =
        ["SELECT CircleName FROM Circles WHERE CircleID = ?",
         "SELECT SubdivisionName FROM Subdivisions WHERE SubdivisionID = ?",
         kpiSqlShape "billing_efficiency" "month" "value" false true false] ∧
      (∀ ps, dbSubNoParent
          "SELECT DivisionName FROM Divisions WHERE DivisionID = ? AND CircleID = ?" ps
        = .ok [])) := by
  refine ⟨?_, by decide, by decide, fun ps => rfl⟩
  intro tableName labelKey valueKey db c s y
  simp only [Srv.fetchKPI, subOnlyReq, Srv.validateAndGetGeoName, Srv.optValidate,
    Srv.finishLookup, jsOptFalsy_intToString, jsOptTruthy_intToString, jsIntCheck_intToString,
    Bool.false_eq_true, if_false, if_true, Option.getD_some,
    show jsOptTruthy none = false from rfl]
  rcases hdb1 : db ("SELECT " ++ "CircleName" ++ " FROM " ++ "Circles" ++ " WHERE "
      ++ "CircleID" ++ " = ?") [JsVal.vInt c] with m | rows1
  · simp only [hdb1]
    exact ⟨[], by simp, Or.inl rfl⟩
  · rcases rows1 with _ | ⟨r1, t1⟩
    · simp only [hdb1]
      exact ⟨[], by simp, Or.inl rfl⟩
    · simp only [hdb1]
      rcases hdb3 : db ("SELECT " ++ "SubdivisionName" ++ " FROM " ++ "Subdivisions"
          ++ " WHERE " ++ "SubdivisionID" ++ " = ?") [JsVal.vInt s] with m | rows3
      · simp only [hdb3]
        exact ⟨[⟨"SELECT SubdivisionName FROM Subdivisions WHERE SubdivisionID = ?",
          [.vInt s]⟩], by simp, Or.inr ⟨[], rfl⟩⟩
      · rcases rows3 with _ | ⟨r3, t3⟩
        · simp only [hdb3]
          exact ⟨[⟨"SELECT SubdivisionName FROM Subdivisions WHERE SubdivisionID = ?",
            [.vInt s]⟩], by simp, Or.inr ⟨[], rfl⟩⟩
        · simp only [hdb3]
          obtain ⟨⟨q, ps⟩, hq⟩ : ∃ qp, Srv.buildKpiQuery tableName labelKey valueKey
              ((r1.lookup "CircleName").getD .vUndef) y JsVal.vUndef
              ((r3.lookup "SubdivisionName").getD .vUndef) JsVal.vUndef = qp := ⟨_, rfl⟩
          rw [hq]
          rcases hdb5 : db q ps with m | rows
          · simp only [hdb5]
            exact ⟨⟨"SELECT SubdivisionName FROM Subdivisions WHERE SubdivisionID = ?",
              [.vInt s]⟩ :: [⟨q, ps⟩], by simp, Or.inr ⟨[⟨q, ps⟩], rfl⟩⟩
          · simp only [hdb5]
            exact ⟨⟨"SELECT SubdivisionName FROM Subdivisions WHERE SubdivisionID = ?",
              [.vInt s]⟩ :: [⟨q, ps⟩], by simp, Or.inr ⟨[⟨q, ps⟩], rfl⟩⟩

end Backend
